import Mathlib

/-!
Verification development for the marketing-data-app QA/UAT script corpus.

The repository is a collection of standalone Python scripts that each
(a) load a CSV of campaign-performance rows, (b) aggregate expected metrics
(totals and derived ratios, overall / per platform / per campaign) and
(c) validate free-text answers of a remote service against those metrics
using regular-expression extraction and tolerance checks.

This file gives a shallow embedding of the aggregation and validation
functions of the scripts cited by the claims:
  - stratospheric_1000_uat.py             (namespace-free names with Strat prefix)
  - comprehensive_100_question_uat.py     (Uat100 prefix)
  - comprehensive_csv_validation.py       (Comp prefix)
  - accurate_qa_test.py                   (AQ prefix)
  - quick_ui_test.py                      (QuickUI prefix)

Numeric values are modelled as rationals; Python floats in these scripts
only ever hold CSV-loaded decimals and their sums/ratios, and no claim
depends on binary rounding.  A Python runtime exception (ZeroDivisionError,
TypeError) is modelled as `Option.none` or `Except.error`.

Regular-expression search (`re.search` / `re.findall`-first-match) over the
concrete patterns used by the scripts is modelled by a small fueled
backtracking engine (`matchRE`) with greedy `star`/`opt`, which reproduces
Python leftmost search with backtracking for these patterns.
-/

/-! ## A small regex engine (character class, sequence, greedy star / opt) -/

inductive RE where
  | eps : RE
  | cls : (Char → Bool) → RE
  | seq : RE → RE → RE
  | opt : RE → RE
  | star : RE → RE

/-- Backtracking matcher with continuation `k` on the remaining input.
Alternatives are tried in greedy order (consume first), exactly as a
backtracking regex engine does; `star` only iterates when progress is made
(all starred sub-patterns in this file consume at least one character, as
their Python counterparts do).  The fuel only bounds recursion depth. -/
def matchRE : Nat → RE → List Char → (List Char → Option α) → Option α
  | 0, _, _, _ => none
  | _ + 1, .eps, cs, k => k cs
  | _ + 1, .cls _, [], _ => none
  | _ + 1, .cls p, c :: cs, k => if p c then k cs else none
  | f + 1, .seq a b, cs, k => matchRE f a cs (fun rest => matchRE f b rest k)
  | f + 1, .opt r, cs, k => (matchRE f r cs k).orElse (fun _ => k cs)
  | f + 1, .star r, cs, k =>
      (matchRE f r cs (fun rest =>
        if rest.length < cs.length then matchRE f (.star r) rest k else none)).orElse
        (fun _ => k cs)

/-- Fuel that is ample for every pattern in this file on the given input. -/
def fuelFor (cs : List Char) : Nat := 16 * cs.length + 64

/-- Attempt the pattern `pre (grp) post` anchored at the start of `cs`;
returns the substring captured by the single group. -/
def tryAt (pre grp post : RE) (cs : List Char) : Option (List Char) :=
  matchRE (fuelFor cs) pre cs (fun r1 =>
    matchRE (fuelFor cs) grp r1 (fun r2 =>
      matchRE (fuelFor cs) post r2 (fun _ =>
        some (r1.take (r1.length - r2.length)))))

/-- Model of Python `re.search` for a one-group pattern: leftmost match
wins, and at a given position alternatives are tried in backtracking
order by `tryAt`. -/
def searchG (pre grp post : RE) : List Char → Option (List Char)
  | [] => tryAt pre grp post []
  | c :: cs => (tryAt pre grp post (c :: cs)).orElse (fun _ => searchG pre grp post cs)

/-! ## Character classes and pattern pieces used by the scripts -/

def dig : RE := .cls Char.isDigit

def digComma : RE := .cls (fun c => c.isDigit || c == ',')

def chRE (c : Char) : RE := .cls (fun x => x == c)

/-- Case-insensitive letter, for patterns compiled with `re.IGNORECASE`. -/
def chIRE (c : Char) : RE := .cls (fun x => x.toLower == c)

def isPySpace (c : Char) : Bool :=
  c == ' ' || c == '\t' || c == '\n' || c == '\r' || c == '\x0b' || c == '\x0c'

def wsp : RE := .cls isPySpace

/-- Whitespace star, the regex `\s*`. -/
def wsStar : RE := .star wsp

/-- Case-insensitive literal word, one `chIRE` per character. -/
def wordRE (w : List Char) : RE := w.foldr (fun c r => .seq (chIRE c) r) .eps

/-- The regex `\d+\.?\d*` (greedy, with the same backtracking order). -/
def numSimple : RE := .seq dig (.seq (.star dig) (.seq (.opt (chRE '.')) (.star dig)))

/-- The regex `[\d,]+\.?\d*`. -/
def commaNum : RE := .seq digComma (.seq (.star digComma) (.seq (.opt (chRE '.')) (.star dig)))

/-- The regex `[\d,]+`. -/
def commaOnly : RE := .seq digComma (.star digComma)

/-- The regex `\d{1,3}` encoded with the same greedy backtracking order. -/
def rep13dig : RE := .seq dig (.opt (.seq dig (.opt dig)))

/-- The regex `\d{1,3}(?:,\d{3})*(?:\.\d+)?` used by stratospheric_1000_uat. -/
def grpNum : RE :=
  .seq rep13dig
    (.seq (.star (.seq (chRE ',') (.seq dig (.seq dig dig))))
      (.opt (.seq (chRE '.') (.seq dig (.star dig)))))

/-! ## Parsing matched groups, substring search, lowering -/

def digitsToNat (cs : List Char) : Nat :=
  cs.foldl (fun n c => 10 * n + (c.toNat - 48)) 0

/-- Model of Python `float(group.replace(',', ''))` on a captured group:
strips commas, then reads an optional integer part, an optional dot and an
optional fractional part; `none` models a `ValueError`. -/
def parseQ (cs0 : List Char) : Option ℚ :=
  let cs := cs0.filter (fun c => c != ',')
  let ip := cs.takeWhile Char.isDigit
  let rest := cs.dropWhile Char.isDigit
  match rest with
  | [] => if ip.isEmpty then none else some (digitsToNat ip : ℚ)
  | '.' :: fp =>
      if fp.all Char.isDigit && (!ip.isEmpty || !fp.isEmpty) then
        some ((digitsToNat ip : ℚ) + (digitsToNat fp : ℚ) / ((10 : ℚ) ^ fp.length))
      else none
  | _ => none

/-- Model of Python `int(group.replace(',', ''))`; `none` models ValueError. -/
def parseIntQ (cs0 : List Char) : Option ℚ :=
  let cs := cs0.filter (fun c => c != ',')
  if cs.isEmpty || !cs.all Char.isDigit then none else some (digitsToNat cs : ℚ)

def leadsWith : List Char → List Char → Bool
  | [], _ => true
  | _ :: _, [] => false
  | p :: ps, c :: cs => p == c && leadsWith ps cs

/-- Model of the Python substring test `needle in hay`. -/
def containsL (needle : List Char) : List Char → Bool
  | [] => needle.isEmpty
  | c :: cs => leadsWith needle (c :: cs) || containsL needle cs

def containsStr (hay needle : String) : Bool := containsL needle.toList hay.toList

def strLower (s : String) : String := String.mk (s.toList.map Char.toLower)

/-- Model of Python `str.title()` (ASCII): a letter is uppercased when the
previous character is not a letter, lowercased otherwise. -/
def titleGo : Bool → List Char → List Char
  | _, [] => []
  | prevAlpha, c :: cs =>
      if c.isAlpha then
        (if prevAlpha then c.toLower else c.toUpper) :: titleGo true cs
      else
        c :: titleGo false cs

def titleCase (s : String) : String := String.mk (titleGo false s.toList)

/-- Model of Python `str.strip()`: drop whitespace from both ends. -/
def pyStrip (s : String) : String :=
  String.mk (((s.toList.dropWhile isPySpace).reverse.dropWhile isPySpace).reverse)

/-! ## Data model

One row of `sample-campaign-data.csv`, after the numeric coercion that every
script performs at its load boundary (columns: date, platform, campaign_name,
spend, impressions, clicks, conversions, ctr, cpc, cpm, roas; the date column
is never used by the functions under verification and is omitted).  There is
no revenue column in the CSV. -/

structure CsvRow where
  platform : String
  campaign_name : String
  spend : ℚ
  impressions : ℚ
  clicks : ℚ
  conversions : ℚ
  ctr : ℚ
  cpc : ℚ
  cpm : ℚ
  roas : ℚ
deriving DecidableEq

/-- Grouping keys in first-occurrence order, as produced by iterating a
Python `defaultdict` that is filled in input order. -/
def firstKeys : List String → List String
  | [] => []
  | k :: ks => k :: (firstKeys ks).filter (fun x => x != k)

theorem mem_firstKeys {x : String} : ∀ {l : List String}, x ∈ firstKeys l ↔ x ∈ l := by
  intro l
  induction l with
  | nil => simp [firstKeys]
  | cons k ks ih =>
      simp only [firstKeys, List.mem_cons, List.mem_filter, ih, bne_iff_ne, ne_eq,
        decide_eq_true_eq]
      constructor
      · rintro (rfl | ⟨h, _⟩) <;> tauto
      · rintro (rfl | h)
        · tauto
        · by_cases hx : x = k <;> tauto

theorem nodup_firstKeys : ∀ (l : List String), (firstKeys l).Nodup := by
  intro l
  induction l with
  | nil => simp [firstKeys]
  | cons k ks ih =>
      simp only [firstKeys, List.nodup_cons]
      refine ⟨?_, ih.filter _⟩
      simp [List.mem_filter]

/-! ## stratospheric_1000_uat.py -/

/-- A record produced by `load_csv_data` of stratospheric_1000_uat.py. -/
structure StratRecord where
  platform : String
  campaign_name : String
  spend : ℚ
  revenue : ℚ
  impressions : ℚ
  clicks : ℚ
  conversions : ℚ
  ctr : ℚ
  roas : ℚ
  cpa : ℚ
deriving DecidableEq

/-- One row of `load_csv_data` (stratospheric_1000_uat.py lines 19-40):
revenue is computed from spend and ROAS, CPA from spend and conversions,
and the per-row ctr is recomputed as clicks/impressions. -/
def stratLoadRow (row : CsvRow) : StratRecord :=
  let spend := row.spend
  let roas := row.roas
  let revenue := spend * roas
  let conversions := row.conversions
  let cpa := if conversions > 0 then spend / conversions else 0
  { platform := row.platform
    campaign_name := row.campaign_name
    spend := spend
    revenue := revenue
    impressions := row.impressions
    clicks := row.clicks
    conversions := conversions
    ctr := if row.impressions > 0 then row.clicks / row.impressions else 0
    roas := roas
    cpa := cpa }

def strat_load_csv_data (rows : List CsvRow) : List StratRecord := rows.map stratLoadRow

/-- One aggregate bucket of `calculate_csv_metrics` (the dict built per
platform and per campaign). -/
structure StratBucket where
  spend : ℚ
  revenue : ℚ
  impressions : ℚ
  clicks : ℚ
  conversions : ℚ
  ctr : ℚ
  roas : ℚ
  cpa : ℚ
deriving DecidableEq

/-- The per-group accumulation and ratio computation of
`calculate_csv_metrics` (stratospheric_1000_uat.py lines 69-85 and 95-111,
identical for platforms and campaigns). -/
def stratBucket (items : List StratRecord) : StratBucket :=
  let spend := (items.map (fun i => i.spend)).sum
  let revenue := (items.map (fun i => i.revenue)).sum
  let impressions := (items.map (fun i => i.impressions)).sum
  let clicks := (items.map (fun i => i.clicks)).sum
  let conversions := (items.map (fun i => i.conversions)).sum
  { spend := spend
    revenue := revenue
    impressions := impressions
    clicks := clicks
    conversions := conversions
    ctr := if impressions > 0 then clicks / impressions else 0
    roas := if spend > 0 then revenue / spend else 0
    cpa := if conversions > 0 then spend / conversions else 0 }

structure StratMetrics where
  total_spend : ℚ
  total_revenue : ℚ
  total_impressions : ℚ
  total_clicks : ℚ
  total_conversions : ℚ
  overall_ctr : ℚ
  overall_roas : ℚ
  overall_cpa : ℚ
  platform_metrics : List (String × StratBucket)
  campaign_metrics : List (String × StratBucket)
deriving DecidableEq

/-- Model of `calculate_csv_metrics` (stratospheric_1000_uat.py lines 43-115).
Grouping keys are the verbatim `platform` / `campaign_name` strings (the
script performs no whitespace normalization), in first-occurrence order;
each bucket aggregates the records whose key equals the group key. -/
def strat_calculate_csv_metrics (data : List StratRecord) : StratMetrics :=
  let total_spend := (data.map (fun i => i.spend)).sum
  let total_revenue := (data.map (fun i => i.revenue)).sum
  let total_impressions := (data.map (fun i => i.impressions)).sum
  let total_clicks := (data.map (fun i => i.clicks)).sum
  let total_conversions := (data.map (fun i => i.conversions)).sum
  { total_spend := total_spend
    total_revenue := total_revenue
    total_impressions := total_impressions
    total_clicks := total_clicks
    total_conversions := total_conversions
    overall_ctr := if total_impressions > 0 then total_clicks / total_impressions else 0
    overall_roas := if total_spend > 0 then total_revenue / total_spend else 0
    overall_cpa := if total_conversions > 0 then total_spend / total_conversions else 0
    platform_metrics :=
      (firstKeys (data.map (fun i => i.platform))).map
        (fun p => (p, stratBucket (data.filter (fun i => i.platform == p))))
    campaign_metrics :=
      (firstKeys (data.map (fun i => i.campaign_name))).map
        (fun c => (c, stratBucket (data.filter (fun i => i.campaign_name == c)))) }

/-! ## comprehensive_100_question_uat.py : load and aggregate -/

/-- A record produced by `load_csv_data` of comprehensive_100_question_uat.py
(lines 10-33): revenue is computed from ROAS and spend; the per-row ctr, cpc
and cpm columns are kept as loaded. -/
structure U100Record where
  campaign : String
  platform : String
  impressions : ℚ
  clicks : ℚ
  spend : ℚ
  revenue : ℚ
  conversions : ℚ
  ctr : ℚ
  cpc : ℚ
  cpm : ℚ
  roas : ℚ
deriving DecidableEq

def u100LoadRow (row : CsvRow) : U100Record :=
  let spend := row.spend
  let roas := row.roas
  let revenue := spend * roas
  { campaign := row.campaign_name
    platform := row.platform
    impressions := row.impressions
    clicks := row.clicks
    spend := spend
    revenue := revenue
    conversions := row.conversions
    ctr := row.ctr
    cpc := row.cpc
    cpm := row.cpm
    roas := roas }

def u100_load_csv_data (rows : List CsvRow) : List U100Record := rows.map u100LoadRow

/-- A per-campaign / per-platform bucket of `calculate_csv_metrics`
(comprehensive_100_question_uat.py lines 51-86): accumulated sums together
with the list of per-row ctr / roas values and their means. -/
structure U100Bucket where
  impressions : ℚ
  clicks : ℚ
  spend : ℚ
  revenue : ℚ
  conversions : ℚ
  ctr_values : List ℚ
  roas_values : List ℚ
  avg_ctr : ℚ
  avg_roas : ℚ
deriving DecidableEq

def u100Bucket (items : List U100Record) : U100Bucket :=
  let ctr_values := items.map (fun i => i.ctr)
  let roas_values := items.map (fun i => i.roas)
  { impressions := (items.map (fun i => i.impressions)).sum
    clicks := (items.map (fun i => i.clicks)).sum
    spend := (items.map (fun i => i.spend)).sum
    revenue := (items.map (fun i => i.revenue)).sum
    conversions := (items.map (fun i => i.conversions)).sum
    ctr_values := ctr_values
    roas_values := roas_values
    avg_ctr := if ctr_values.length > 0 then ctr_values.sum / (ctr_values.length : ℚ) else 0
    avg_roas := if roas_values.length > 0 then roas_values.sum / (roas_values.length : ℚ) else 0 }

structure U100Metrics where
  total_impressions : ℚ
  total_clicks : ℚ
  total_spend : ℚ
  total_revenue : ℚ
  total_conversions : ℚ
  overall_ctr : ℚ
  overall_cpc : ℚ
  overall_cpm : ℚ
  overall_cpa : ℚ
  overall_roas : ℚ
  campaign_metrics : List (String × U100Bucket)
  platform_metrics : List (String × U100Bucket)
deriving DecidableEq

/-- Model of `calculate_csv_metrics` (comprehensive_100_question_uat.py
lines 35-91).  The overall ratios are ratio-of-sums with zero guards; the
per-campaign and per-platform buckets carry sums plus mean per-row ctr and
roas; grouping keys are the verbatim strings in first-occurrence order. -/
def u100_calculate_csv_metrics (data : List U100Record) : U100Metrics :=
  let timp := (data.map (fun i => i.impressions)).sum
  let tclk := (data.map (fun i => i.clicks)).sum
  let tsp := (data.map (fun i => i.spend)).sum
  let trev := (data.map (fun i => i.revenue)).sum
  let tconv := (data.map (fun i => i.conversions)).sum
  { total_impressions := timp
    total_clicks := tclk
    total_spend := tsp
    total_revenue := trev
    total_conversions := tconv
    overall_ctr := if timp > 0 then tclk / timp else 0
    overall_cpc := if tclk > 0 then tsp / tclk else 0
    overall_cpm := if timp > 0 then (tsp / timp) * 1000 else 0
    overall_cpa := if tconv > 0 then tsp / tconv else 0
    overall_roas := if tsp > 0 then trev / tsp else 0
    campaign_metrics :=
      (firstKeys (data.map (fun i => i.campaign))).map
        (fun c => (c, u100Bucket (data.filter (fun i => i.campaign == c))))
    platform_metrics :=
      (firstKeys (data.map (fun i => i.platform))).map
        (fun p => (p, u100Bucket (data.filter (fun i => i.platform == p)))) }

/-! ## comprehensive_100_question_uat.py : extraction and validation -/

/-- The metric-type strings used by comprehensive_100_question_uat.py. -/
inductive U100Type where
  | ctr | roas | currency | number
deriving DecidableEq

/-- Model of `extract_number_from_response` (comprehensive_100_question_uat.py
lines 111-143).  Patterns, one per metric type, no IGNORECASE flag:
ctr `(\d+\.?\d*)%` divided by 100; roas `(\d+\.?\d*)x`;
currency `\$?([\d,]+\.?\d*)` commas stripped; number `([\d,]+\.?\d*)`
commas stripped.  A float ValueError returns None (modelled by `parseQ`). -/
def u100_extract_number_from_response (response : String) (t : U100Type) : Option ℚ :=
  if response = "" || containsStr response "Error:" then none
  else
    match t with
    | .ctr =>
        ((searchG .eps numSimple (chRE '%') response.toList).bind parseQ).map (fun v => v / 100)
    | .roas => (searchG .eps numSimple (chRE 'x') response.toList).bind parseQ
    | .currency => (searchG (.opt (chRE '$')) commaNum .eps response.toList).bind parseQ
    | .number => (searchG .eps commaNum .eps response.toList).bind parseQ

/-- Model of `validate_response` (comprehensive_100_question_uat.py lines
145-158).  The expected value is `Option ℚ` because callers pass `None` for
question kinds without a single expected number; `Except.error` models the
Python `TypeError` raised by `abs(extracted_value - None) / None`.
Diagnostic messages are abbreviated (the Python messages interpolate the
numbers; only the pass boolean and the branch are semantically relevant). -/
def u100_validate_response (response : String) (expected : Option ℚ) (t : U100Type)
    (tolerance : ℚ) : Except String (Bool × String) :=
  if response = "" || containsStr response "Error:" then
    .ok (false, "No response or error")
  else
    match u100_extract_number_from_response response t with
    | none => .ok (false, "Could not extract value from response")
    | some v =>
        match expected with
        | some e =>
            if e = 0 then .ok (decide (v = 0), "Expected 0")
            else .ok (decide (|v - e| / e ≤ tolerance), "Expected vs got with relative diff")
        | none => .error "TypeError: unsupported operand type for abs with NoneType"

/-- Projection: did the validator return a passing outcome (an exception
counts as not passing)? -/
def passOf : Except String (Bool × String) → Bool
  | .ok (b, _) => b
  | .error _ => false

/-- Projection: did the validator raise (model of an uncaught exception)? -/
def raisedOf : Except String (Bool × String) → Bool
  | .ok _ => false
  | .error _ => true

/-! ## stratospheric_1000_uat.py : extraction and validation -/

/-- The metric-type strings used by stratospheric_1000_uat.py. -/
inductive StratType where
  | percentage | currency | number | comparative | insights
deriving DecidableEq

/-- Model of `extract_number_from_response` (stratospheric_1000_uat.py lines
131-163).  For each metric type a list of patterns is tried in order with
`re.search(pattern, response, re.IGNORECASE)`; the first match whose group
parses as a float is returned (every group of these patterns parses, so the
first match wins), percentages are divided by 100.
percentage: `(\d+\.?\d*)%`, `(\d+\.?\d*)\s*percent`, `(\d+\.?\d*)\s*per\s*cent`;
currency: `\$(G)`, `(G)\s*dollars?`, `(G)\s*USD` with G = `\d{1,3}(?:,\d{3})*(?:\.\d+)?`;
otherwise: `:\s*(G)`, `(G)`, `(\d+\.?\d*)`.  Any metric type other than
percentage or currency (including comparative and insights) takes the
number patterns, as the Python `else` branch does. -/
def strat_extract_number_from_response (response : String) (t : StratType) : Option ℚ :=
  let cs := response.toList
  match t with
  | .percentage =>
      (((searchG .eps numSimple (chRE '%') cs).bind parseQ).orElse (fun _ =>
        ((searchG .eps numSimple (.seq wsStar (wordRE ['p','e','r','c','e','n','t'])) cs).bind
          parseQ).orElse (fun _ =>
          (searchG .eps numSimple
            (.seq wsStar (.seq (wordRE ['p','e','r'])
              (.seq wsStar (wordRE ['c','e','n','t'])))) cs).bind parseQ))).map
        (fun v => v / 100)
  | .currency =>
      ((searchG (chRE '$') grpNum .eps cs).bind parseQ).orElse (fun _ =>
        ((searchG .eps grpNum
            (.seq wsStar (.seq (wordRE ['d','o','l','l','a','r']) (.opt (chIRE 's')))) cs).bind
          parseQ).orElse (fun _ =>
          (searchG .eps grpNum (.seq wsStar (wordRE ['u','s','d'])) cs).bind parseQ))
  | _ =>
      ((searchG (.seq (chRE ':') wsStar) grpNum .eps cs).bind parseQ).orElse (fun _ =>
        ((searchG .eps grpNum .eps cs).bind parseQ).orElse (fun _ =>
          (searchG .eps numSimple .eps cs).bind parseQ))

/-- Model of `validate_response` (stratospheric_1000_uat.py lines 165-186).
Both the percentage branch and the default branch compare by absolute
difference `|extracted - expected| <= tolerance`.  With `expected = none`
(callers pass `None` for comparative and insights questions) a numeric
branch raises a `TypeError` at `abs(extracted_value - expected_value)`,
modelled by `Except.error`. -/
def strat_validate_response (response : String) (expected : Option ℚ) (t : StratType)
    (tolerance : ℚ) : Except String (Bool × String) :=
  if response = "" || containsStr (strLower response) "error" then
    .ok (false, "Error in response")
  else if t = .comparative || t = .insights then
    if response.length > 50 && !leadsWith "I understand".toList response.toList then
      .ok (true, "Valid response")
    else
      .ok (false, "Generic response")
  else
    match strat_extract_number_from_response response t with
    | none => .ok (false, "Could not extract number from response")
    | some v =>
        match expected with
        | some e => .ok (decide (|v - e| ≤ tolerance), "Expected vs got")
        | none => .error "TypeError: unsupported operand type for abs with NoneType"

/-! ## quick_ui_test.py : aggregate -/

structure QuickUIBucket where
  ctr : ℚ
  roas : ℚ
  spend : ℚ
  impressions : ℚ
  clicks : ℚ
  conversions : ℚ
deriving DecidableEq

structure QuickUIMetrics where
  total_spend : ℚ
  total_revenue : ℚ
  total_impressions : ℚ
  total_clicks : ℚ
  total_conversions : ℚ
  overall_roas : ℚ
  average_ctr : ℚ
  average_cpc : ℚ
  average_cpm : ℚ
  average_cpa : ℚ
  platform_metrics : List (String × QuickUIBucket)
deriving DecidableEq

/-- Model of `calculate_csv_metrics` (quick_ui_test.py lines 40-90): totals
over the raw CSV rows, revenue derived as spend * roas per row (line 52),
ratio-of-sums with zero guards for all derived ratios, per-platform buckets
by verbatim platform key. -/
def quickui_calculate_csv_metrics (csv_data : List CsvRow) : QuickUIMetrics :=
  let tsp := (csv_data.map (fun r => r.spend)).sum
  let timp := (csv_data.map (fun r => r.impressions)).sum
  let tclk := (csv_data.map (fun r => r.clicks)).sum
  let tconv := (csv_data.map (fun r => r.conversions)).sum
  let trev := (csv_data.map (fun r => r.spend * r.roas)).sum
  { total_spend := tsp
    total_revenue := trev
    total_impressions := timp
    total_clicks := tclk
    total_conversions := tconv
    overall_roas := if tsp > 0 then trev / tsp else 0
    average_ctr := if timp > 0 then tclk / timp else 0
    average_cpc := if tclk > 0 then tsp / tclk else 0
    average_cpm := if timp > 0 then (tsp / timp) * 1000 else 0
    average_cpa := if tconv > 0 then tsp / tconv else 0
    platform_metrics :=
      (firstKeys (csv_data.map (fun r => r.platform))).map (fun p =>
        let items := csv_data.filter (fun r => r.platform == p)
        let spend := (items.map (fun r => r.spend)).sum
        let imp := (items.map (fun r => r.impressions)).sum
        let clk := (items.map (fun r => r.clicks)).sum
        let conv := (items.map (fun r => r.conversions)).sum
        let rev := (items.map (fun r => r.spend * r.roas)).sum
        (p, { ctr := if imp > 0 then clk / imp else 0
              roas := if spend > 0 then rev / spend else 0
              spend := spend
              impressions := imp
              clicks := clk
              conversions := conv })) }

/-! ## comprehensive_csv_validation.py : aggregate -/

structure CompBucket where
  ctr : ℚ
  roas : ℚ
  spend : ℚ
  impressions : ℚ
  clicks : ℚ
  conversions : ℚ
  cpc : ℚ
  cpm : ℚ
  cpa : ℚ
deriving DecidableEq

/-- Campaign buckets of comprehensive_csv_validation.py carry no cpm key. -/
structure CompCampBucket where
  ctr : ℚ
  roas : ℚ
  spend : ℚ
  impressions : ℚ
  clicks : ℚ
  conversions : ℚ
  cpc : ℚ
  cpa : ℚ
deriving DecidableEq

structure CompMetrics where
  total_spend : ℚ
  total_revenue : ℚ
  total_impressions : ℚ
  total_clicks : ℚ
  total_conversions : ℚ
  overall_roas : ℚ
  average_ctr : ℚ
  average_cpc : ℚ
  average_cpm : ℚ
  average_cpa : ℚ
  conversion_rate : ℚ
  platform_metrics : List (String × CompBucket)
  campaign_metrics : List (String × CompCampBucket)
deriving DecidableEq

def compPlatformBucket (items : List CsvRow) : CompBucket :=
  let spend := (items.map (fun r => r.spend)).sum
  let imp := (items.map (fun r => r.impressions)).sum
  let clk := (items.map (fun r => r.clicks)).sum
  let conv := (items.map (fun r => r.conversions)).sum
  let rev := (items.map (fun r => r.spend * r.roas)).sum
  let ctr_values := items.map (fun r => r.ctr)
  { ctr := if ctr_values.length > 0 then ctr_values.sum / (ctr_values.length : ℚ) else 0
    roas := if spend > 0 then rev / spend else 0
    spend := spend
    impressions := imp
    clicks := clk
    conversions := conv
    cpc := if clk > 0 then spend / clk else 0
    cpm := if imp > 0 then (spend / imp) * 1000 else 0
    cpa := if conv > 0 then spend / conv else 0 }

def compCampaignBucket (items : List CsvRow) : CompCampBucket :=
  let spend := (items.map (fun r => r.spend)).sum
  let imp := (items.map (fun r => r.impressions)).sum
  let clk := (items.map (fun r => r.clicks)).sum
  let conv := (items.map (fun r => r.conversions)).sum
  let rev := (items.map (fun r => r.spend * r.roas)).sum
  let ctr_values := items.map (fun r => r.ctr)
  { ctr := if ctr_values.length > 0 then ctr_values.sum / (ctr_values.length : ℚ) else 0
    roas := if spend > 0 then rev / spend else 0
    spend := spend
    impressions := imp
    clicks := clk
    conversions := conv
    cpc := if clk > 0 then spend / clk else 0
    cpa := if conv > 0 then spend / conv else 0 }

/-- Model of `calculate_comprehensive_csv_metrics`
(comprehensive_csv_validation.py lines 43-139).  On the empty row list the
Python raises ZeroDivisionError at
`average_ctr = sum(ctr values) / len(csv_data)` (line 57, the only
unguarded division), modelled by `none`.  The overall average_ctr and every
bucket ctr are the mean of the per-row ctr column; the other derived ratios
are ratio-of-sums with zero guards.  Campaign names are stripped of
surrounding whitespace before grouping (line 113); platform names are grouped verbatim. -/
def calculate_comprehensive_csv_metrics (csv_data : List CsvRow) : Option CompMetrics :=
  match csv_data with
  | [] => none
  | _ =>
    let tsp := (csv_data.map (fun r => r.spend)).sum
    let timp := (csv_data.map (fun r => r.impressions)).sum
    let tclk := (csv_data.map (fun r => r.clicks)).sum
    let tconv := (csv_data.map (fun r => r.conversions)).sum
    let trev := (csv_data.map (fun r => r.spend * r.roas)).sum
    some
      { total_spend := tsp
        total_revenue := trev
        total_impressions := timp
        total_clicks := tclk
        total_conversions := tconv
        overall_roas := if tsp > 0 then trev / tsp else 0
        average_ctr := ((csv_data.map (fun r => r.ctr)).sum) / (csv_data.length : ℚ)
        average_cpc := if tclk > 0 then tsp / tclk else 0
        average_cpm := if timp > 0 then (tsp / timp) * 1000 else 0
        average_cpa := if tconv > 0 then tsp / tconv else 0
        conversion_rate := if tclk > 0 then tconv / tclk else 0
        platform_metrics :=
          (firstKeys (csv_data.map (fun r => r.platform))).map
            (fun p => (p, compPlatformBucket (csv_data.filter (fun r => r.platform == p))))
        campaign_metrics :=
          (firstKeys (csv_data.map (fun r => pyStrip r.campaign_name))).map
            (fun c =>
              (c, compCampaignBucket
                (csv_data.filter (fun r => pyStrip r.campaign_name == c)))) }

/-! ## comprehensive_csv_validation.py : validate_against_csv -/

def compPlatLookup (m : CompMetrics) (name : String) : Option CompBucket :=
  (m.platform_metrics.find? (fun pb => pb.1 == name)).map (fun pb => pb.2)

def compCampLookup (m : CompMetrics) (name : String) : Option CompCampBucket :=
  (m.campaign_metrics.find? (fun cb => cb.1 == name)).map (fun cb => cb.2)

/-- Python `metrics.get(key, {}).get(field, 0)` on the platform dict. -/
def compPlatField (m : CompMetrics) (name : String) (f : CompBucket → ℚ) : ℚ :=
  match compPlatLookup m name with
  | some b => f b
  | none => 0

def compCampField (m : CompMetrics) (name : String) (f : CompCampBucket → ℚ) : ℚ :=
  match compCampLookup m name with
  | some b => f b
  | none => 0

def compPlatformNames : List String :=
  ["meta", "amazon", "dv360", "cm360", "sa360", "tradedesk"]

def compCampaignNames : List String :=
  ["freshnest summer grilling", "freshnest back to school",
   "freshnest holiday recipes", "freshnest pantry staples"]

/-- Platform-specific branch of the ctr validation (comprehensive_csv_validation.py
lines 199-211): the first listed platform named in the question is checked. -/
def compCtrPlatformLoop (m : CompMetrics) (lq resp : String) :
    List String → Option (Bool × String)
  | [] => none
  | p :: ps =>
      if containsStr lq p then
        some
          (match (searchG .eps numSimple (chRE '%') resp.toList).bind parseQ with
           | some v =>
               (decide (|v / 100 - compPlatField m (titleCase p) (fun b => b.ctr)| < 1 / 1000),
                 "platform CTR comparison")
           | none => (false, "No platform CTR percentage found in response"))
      else compCtrPlatformLoop m lq resp ps

/-- Platform branch 11 (lines 303-333): for the first listed platform named
in the question, a roas question and then a spend question return; a
platform match with neither keyword falls through to later branches. -/
def compPlatformLoop (m : CompMetrics) (lq resp : String) :
    List String → Option (Bool × String)
  | [] => none
  | p :: ps =>
      if containsStr lq p then
        if containsStr lq "roas" then
          some
            (match (searchG .eps numSimple (chRE 'x') resp.toList).bind parseQ with
             | some v =>
                 (decide (|v - compPlatField m (titleCase p) (fun b => b.roas)| < 1 / 10),
                   "platform ROAS comparison")
             | none => (false, "No platform ROAS value found in response"))
        else if containsStr lq "spend" then
          some
            (match (searchG (chRE '$') commaNum .eps resp.toList).bind parseQ with
             | some v =>
                 (decide (|v - compPlatField m (titleCase p) (fun b => b.spend)| < 1),
                   "platform spend comparison")
             | none => (false, "No platform spend amount found in response"))
        else compPlatformLoop m lq resp ps
      else compPlatformLoop m lq resp ps

/-- Campaign branch 12 (lines 335-365), analogous to the platform branch
with ctr and roas checks (the `.title()`-cased lookup key is kept as the
Python writes it). -/
def compCampaignLoop (m : CompMetrics) (lq resp : String) :
    List String → Option (Bool × String)
  | [] => none
  | c :: cs =>
      if containsStr lq c then
        if containsStr lq "ctr" then
          some
            (match (searchG .eps numSimple (chRE '%') resp.toList).bind parseQ with
             | some v =>
                 (decide (|v / 100 - compCampField m (titleCase c) (fun b => b.ctr)| < 1 / 1000),
                   "campaign CTR comparison")
             | none => (false, "No campaign CTR percentage found in response"))
        else if containsStr lq "roas" then
          some
            (match (searchG .eps numSimple (chRE 'x') resp.toList).bind parseQ with
             | some v =>
                 (decide (|v - compCampField m (titleCase c) (fun b => b.roas)| < 1 / 10),
                   "campaign ROAS comparison")
             | none => (false, "No campaign ROAS value found in response"))
        else compCampaignLoop m lq resp cs
      else compCampaignLoop m lq resp cs

/-- Model of `validate_against_csv` (comprehensive_csv_validation.py lines
141-371).  Branches appear in source order; every branch that fires
returns.  The generic-help check fires only for responses shorter than 200
characters, before any numeric extraction.  `Except.error` models the
uncaught ValueError of `int('')` when a `([\d,]+)` group consists of commas
only.  Diagnostic strings are abbreviated. -/
def validate_against_csv (question ai_response : String) (csv_metrics : CompMetrics) :
    Except String (Bool × String) :=
  let lq := strLower question
  let lr := strLower ai_response
  let rcs := ai_response.toList
  if containsStr lr "error" || containsStr lr "exception" then
    .ok (false, "Response contains error")
  else if containsStr lr "try asking about" && ai_response.length < 200 then
    .ok (false, "Response is generic help message instead of specific answer")
  else if ["total spend", "spend across all", "total cost", "total budget",
      "total investment", "total expenditure",
      "total advertising spend"].any (fun ph => containsStr lq ph) then
    match (searchG (chRE '$') commaNum .eps rcs).bind parseQ with
    | some v => .ok (decide (|v - csv_metrics.total_spend| < 1), "spend comparison")
    | none => .ok (false, "No spend amount found in response")
  else if ["total revenue", "revenue generated",
      "total return"].any (fun ph => containsStr lq ph) then
    match (searchG (chRE '$') commaNum .eps rcs).bind parseQ with
    | some v => .ok (decide (|v - csv_metrics.total_revenue| < 1), "revenue comparison")
    | none => .ok (false, "No revenue amount found in response")
  else if ["overall roas", "total roas",
      "return on ad spend"].any (fun ph => containsStr lq ph) then
    match (searchG .eps numSimple (chRE 'x') rcs).bind parseQ with
    | some v => .ok (decide (|v - csv_metrics.overall_roas| < 1 / 10), "ROAS comparison")
    | none => .ok (false, "No ROAS value found in response")
  else if containsStr lq "average ctr" || containsStr lq "ctr" then
    match compCtrPlatformLoop csv_metrics lq ai_response compPlatformNames with
    | some r => .ok r
    | none =>
        match (searchG .eps numSimple (chRE '%') rcs).bind parseQ with
        | some v =>
            .ok (decide (|v / 100 - csv_metrics.average_ctr| < 1 / 1000), "CTR comparison")
        | none => .ok (false, "No CTR percentage found in response")
  else if ["total impressions",
      "impressions across all"].any (fun ph => containsStr lq ph) then
    match searchG .eps commaOnly .eps rcs with
    | some g =>
        match parseIntQ g with
        | some v =>
            .ok (decide (|v - csv_metrics.total_impressions| < 100), "impressions comparison")
        | none => .error "ValueError: invalid literal for int"
    | none => .ok (false, "No impressions count found in response")
  else if ["total clicks", "clicks across all"].any (fun ph => containsStr lq ph) then
    match searchG .eps commaOnly .eps rcs with
    | some g =>
        match parseIntQ g with
        | some v => .ok (decide (|v - csv_metrics.total_clicks| < 10), "clicks comparison")
        | none => .error "ValueError: invalid literal for int"
    | none => .ok (false, "No clicks count found in response")
  else if ["total conversions",
      "conversions across all"].any (fun ph => containsStr lq ph) then
    match searchG .eps commaOnly .eps rcs with
    | some g =>
        match parseIntQ g with
        | some v =>
            .ok (decide (|v - csv_metrics.total_conversions| < 5), "conversions comparison")
        | none => .error "ValueError: invalid literal for int"
    | none => .ok (false, "No conversions count found in response")
  else if containsStr lq "average cpc" || containsStr lq "cost per click" then
    match (searchG (chRE '$') numSimple .eps rcs).bind parseQ with
    | some v => .ok (decide (|v - csv_metrics.average_cpc| < 1 / 2), "CPC comparison")
    | none => .ok (false, "No CPC value found in response")
  else if containsStr lq "average cpm" || containsStr lq "cost per thousand" then
    match (searchG (chRE '$') numSimple .eps rcs).bind parseQ with
    | some v => .ok (decide (|v - csv_metrics.average_cpm| < 5), "CPM comparison")
    | none => .ok (false, "No CPM value found in response")
  else if containsStr lq "average cpa" || containsStr lq "cost per acquisition" then
    match (searchG (chRE '$') numSimple .eps rcs).bind parseQ with
    | some v => .ok (decide (|v - csv_metrics.average_cpa| < 2), "CPA comparison")
    | none => .ok (false, "No CPA value found in response")
  else
    match compPlatformLoop csv_metrics lq ai_response compPlatformNames with
    | some r => .ok r
    | none =>
        match compCampaignLoop csv_metrics lq ai_response compCampaignNames with
        | some r => .ok r
        | none =>
            if ai_response.trim.length > 10 && !containsStr lr "error" then
              .ok (true, "Response appears valid")
            else
              .ok (false, "Response too short or contains errors")

/-! ## accurate_qa_test.py -/

/-- One element of the `platforms` / `campaigns` lists built by
`calculate_expected_values` (accurate_qa_test.py lines 80-93 and 115-128):
roas is the mean of the per-row roas values, ctr is ratio-of-sums. -/
structure AQBucket where
  name : String
  spend : ℚ
  revenue : ℚ
  impressions : ℚ
  clicks : ℚ
  conversions : ℚ
  roas : ℚ
  ctr : ℚ
deriving DecidableEq

/-- Builds one AQBucket from the rows of a group.  The group is nonempty by
construction (a key occurs in the data), so the Python
`sum(roas_values) / len(roas_values)` never divides by zero; the rational
convention 0 / 0 = 0 is unreachable for the groups actually formed. -/
def aqBucket (name : String) (items : List CsvRow) : AQBucket :=
  let roas_values := items.map (fun r => r.roas)
  { name := name
    spend := (items.map (fun r => r.spend)).sum
    revenue := (items.map (fun r => r.spend * r.roas)).sum
    impressions := (items.map (fun r => r.impressions)).sum
    clicks := (items.map (fun r => r.clicks)).sum
    conversions := (items.map (fun r => r.conversions)).sum
    roas := roas_values.sum / (roas_values.length : ℚ)
    ctr :=
      if (items.map (fun r => r.impressions)).sum > 0 then
        (items.map (fun r => r.clicks)).sum / (items.map (fun r => r.impressions)).sum
      else 0 }

structure AQExpected where
  total_spend : ℚ
  total_impressions : ℚ
  total_clicks : ℚ
  total_conversions : ℚ
  total_revenue : ℚ
  overall_roas : ℚ
  overall_ctr : ℚ
  platforms : List AQBucket
  campaigns : List AQBucket
  platform_count : ℕ
  campaign_count : ℕ
deriving DecidableEq

/-- Model of `AccurateQATester.calculate_expected_values` (accurate_qa_test.py
lines 45-144).  Revenue is `sum(row.spend * row.roas)` overall and per group
(lines 56, 76, 111); per-group roas is the mean of the per-row roas values
(lines 82, 117) while per-group ctr is clicks/impressions over the sums
(lines 83, 118).  The top-performer fields (`top_platform_by_roas` etc.,
plain `max` over the lists, lines 134-142) are not referenced by any claim
and are omitted. -/
def aq_calculate_expected_values (data : List CsvRow) : AQExpected :=
  let platforms :=
    (firstKeys (data.map (fun r => r.platform))).map
      (fun p => aqBucket p (data.filter (fun r => r.platform == p)))
  let campaigns :=
    (firstKeys (data.map (fun r => r.campaign_name))).map
      (fun c => aqBucket c (data.filter (fun r => r.campaign_name == c)))
  let tsp := (data.map (fun r => r.spend)).sum
  let timp := (data.map (fun r => r.impressions)).sum
  let tclk := (data.map (fun r => r.clicks)).sum
  let trev := (data.map (fun r => r.spend * r.roas)).sum
  { total_spend := tsp
    total_impressions := timp
    total_clicks := tclk
    total_conversions := (data.map (fun r => r.conversions)).sum
    total_revenue := trev
    overall_roas := if tsp > 0 then trev / tsp else 0
    overall_ctr := if timp > 0 then tclk / timp else 0
    platforms := platforms
    campaigns := campaigns
    platform_count := platforms.length
    campaign_count := campaigns.length }

/-- Model of `AccurateQATester.extract_numeric_value` (accurate_qa_test.py
lines 168-192).  The text first has every `,`, `$` and `%` character
removed; then one pattern chosen by metric type is applied with
`re.findall` and the first match is converted
(currency `\$?([\d,]+\.?\d*)`, percentage `(\d+\.?\d*)%`,
decimal `(\d+\.?\d*)x?`, integer `(\d+)`; an unknown metric type takes the
decimal pattern).  No match, or a float ValueError, yields 0.0. -/
def aq_extract_numeric_value (text : String) (metric_type : String) : ℚ :=
  let t := text.toList.filter (fun c => !(c == ',' || c == '$' || c == '%'))
  let found :=
    if metric_type = "currency" then searchG (.opt (chRE '$')) commaNum .eps t
    else if metric_type = "percentage" then searchG .eps numSimple (chRE '%') t
    else if metric_type = "integer" then searchG .eps (.seq dig (.star dig)) .eps t
    else searchG .eps numSimple (.opt (chRE 'x')) t
  match found with
  | some g => (parseQ g).getD 0
  | none => 0

/-- Model of the pass/fail comparison of `AccurateQATester.test_question`
(accurate_qa_test.py lines 229-235) for a numeric expected value (the
`isinstance` test is always true in this model): for nonzero expected,
accuracy is `1 - |actual - expected| / |expected|`, otherwise accuracy is 1
when the values are equal and 0 when not, and the test passes when
accuracy >= 1 - tolerance. -/
def aq_test_question_passed (actual expected tolerance : ℚ) : Bool :=
  if expected ≠ 0 then
    decide (1 - |actual - expected| / |expected| ≥ 1 - tolerance)
  else
    decide ((if actual = expected then (1 : ℚ) else 0) ≥ 1 - tolerance)

/-! ## Extraction patterns modelled from the spec (for refinement claims)

Modelled from the spec: section 4.2(b) fixes canonical extraction patterns
"currency: pattern `\$?([\d,]+\.?\d*)` - strip thousands separators, take
first match" and "percentage: pattern `(\d+\.?\d*)\s*%` - divide by 100 to
get a decimal fraction".  These two definitions follow those words and are
compared with the script extractors. -/

def specCurrencyExtract (s : String) : Option ℚ :=
  (searchG (.opt (chRE '$')) commaNum .eps s.toList).bind parseQ

def specPercentExtract (s : String) : Option ℚ :=
  ((searchG .eps numSimple (.seq wsStar (chRE '%')) s.toList).bind parseQ).map
    (fun v => v / 100)

/-! ## Helper lemmas : partition sums over grouped buckets -/

theorem sum_filter_add_sum_filter_not (p : α → Bool) (g : α → ℚ) (l : List α) :
    ((l.filter p).map g).sum + ((l.filter (fun x => !p x)).map g).sum = (l.map g).sum := by
  induction l with
  | nil => simp
  | cons x xs ih =>
      by_cases h : p x <;> simp only [List.filter_cons, h, Bool.not_true, Bool.not_false,
        if_pos, if_neg, ite_true, ite_false, List.map_cons, List.sum_cons, Bool.false_eq_true,
        Bool.true_eq_false, not_false_eq_true] <;> linarith [ih]

theorem sum_over_nodup_keys (f : α → String) (g : α → ℚ) :
    ∀ (keys : List String) (data : List α), keys.Nodup → (∀ r ∈ data, f r ∈ keys) →
      (keys.map (fun k => ((data.filter (fun r => f r == k)).map g).sum)).sum
        = (data.map g).sum := by
  intro keys
  induction keys with
  | nil =>
      intro data _ hcov
      match data with
      | [] => simp
      | r :: rs => exact absurd (hcov r (List.mem_cons_self r rs)) (List.not_mem_nil _)
  | cons k ks ih =>
      intro data hnd hcov
      have hk : k ∉ ks := (List.nodup_cons.mp hnd).1
      have hks : ks.Nodup := (List.nodup_cons.mp hnd).2
      have hfilter : ∀ k' ∈ ks,
          data.filter (fun r => f r == k')
            = (data.filter (fun r => f r != k)).filter (fun r => f r == k') := by
        intro k' hk'
        have hne : k' ≠ k := by rintro rfl; exact hk hk'
        rw [List.filter_filter]
        apply List.filter_congr
        intro r _
        by_cases h : f r = k'
        · simp [h, hne]
        · simp [h]
      have hmapeq :
          (ks.map (fun k' => ((data.filter (fun r => f r == k')).map g).sum))
            = ks.map (fun k' =>
                (((data.filter (fun r => f r != k)).filter (fun r => f r == k')).map g).sum) := by
        apply List.map_congr_left
        intro k' hk'
        rw [hfilter k' hk']
      have hcov' : ∀ r ∈ data.filter (fun r => f r != k), f r ∈ ks := by
        intro r hr
        have hmem := List.mem_filter.mp hr
        have := hcov r hmem.1
        rcases List.mem_cons.mp this with h | h
        · exact absurd h (by simpa [bne_iff_ne] using hmem.2)
        · exact h
      calc (((k :: ks).map (fun k' => ((data.filter (fun r => f r == k')).map g).sum))).sum
          = ((data.filter (fun r => f r == k)).map g).sum
            + (ks.map (fun k' => ((data.filter (fun r => f r == k')).map g).sum)).sum := by
            simp
        _ = ((data.filter (fun r => f r == k)).map g).sum
            + ((data.filter (fun r => f r != k)).map g).sum := by
            rw [hmapeq, ih (data.filter (fun r => f r != k)) hks hcov']
        _ = (data.map g).sum := by
            have := sum_filter_add_sum_filter_not (fun r => f r == k) g data
            simpa [bne] using this

/-- Partition identity: summing a field over the first-occurrence-keyed
groups of `data` recovers the total over `data`. -/
theorem sum_over_firstKeys (f : α → String) (g : α → ℚ) (data : List α) :
    ((firstKeys (data.map f)).map
        (fun k => ((data.filter (fun r => f r == k)).map g).sum)).sum
      = (data.map g).sum := by
  apply sum_over_nodup_keys
  · exact nodup_firstKeys _
  · intro r hr
    exact mem_firstKeys.mpr (List.mem_map_of_mem f hr)

/-- Filtering a mapped list by a predicate on the image equals mapping the
filtered list, when the predicate factors through the map. -/
theorem filter_of_map (f : α → β) (p : β → Bool) (l : List α) :
    (l.map f).filter p = (l.filter (fun a => p (f a))).map f := by
  induction l with
  | nil => rfl
  | cons x xs ih =>
      by_cases h : p (f x) <;> simp [List.filter_cons, h, ih]

/-! ## Claim theorems -/

/-- C9: For every record sequence, the sum over all platform buckets of each
accumulated field (spend, revenue, impressions, clicks, conversions) equals
the corresponding overall total, in `calculate_csv_metrics` of
stratospheric_1000_uat.py and of comprehensive_100_question_uat.py: grouping
by platform partitions the records. -/
theorem C9_group_sums_partition_totals :
    (∀ data : List StratRecord,
      ((strat_calculate_csv_metrics data).platform_metrics.map (fun pb => pb.2.spend)).sum
          = (strat_calculate_csv_metrics data).total_spend
        ∧ ((strat_calculate_csv_metrics data).platform_metrics.map
            (fun pb => pb.2.revenue)).sum = (strat_calculate_csv_metrics data).total_revenue
        ∧ ((strat_calculate_csv_metrics data).platform_metrics.map
            (fun pb => pb.2.impressions)).sum
          = (strat_calculate_csv_metrics data).total_impressions
        ∧ ((strat_calculate_csv_metrics data).platform_metrics.map
            (fun pb => pb.2.clicks)).sum = (strat_calculate_csv_metrics data).total_clicks
        ∧ ((strat_calculate_csv_metrics data).platform_metrics.map
            (fun pb => pb.2.conversions)).sum
          = (strat_calculate_csv_metrics data).total_conversions)
    ∧ (∀ data : List U100Record,
      ((u100_calculate_csv_metrics data).platform_metrics.map (fun pb => pb.2.spend)).sum
          = (u100_calculate_csv_metrics data).total_spend
        ∧ ((u100_calculate_csv_metrics data).platform_metrics.map
            (fun pb => pb.2.revenue)).sum = (u100_calculate_csv_metrics data).total_revenue
        ∧ ((u100_calculate_csv_metrics data).platform_metrics.map
            (fun pb => pb.2.impressions)).sum
          = (u100_calculate_csv_metrics data).total_impressions
        ∧ ((u100_calculate_csv_metrics data).platform_metrics.map
            (fun pb => pb.2.clicks)).sum = (u100_calculate_csv_metrics data).total_clicks
        ∧ ((u100_calculate_csv_metrics data).platform_metrics.map
            (fun pb => pb.2.conversions)).sum
          = (u100_calculate_csv_metrics data).total_conversions) := by
  constructor
  · intro data
    refine ⟨?_, ?_, ?_, ?_, ?_⟩ <;>
      · simp only [strat_calculate_csv_metrics, stratBucket, List.map_map, Function.comp]
        exact sum_over_firstKeys (fun i => i.platform) _ data
  · intro data
    refine ⟨?_, ?_, ?_, ?_, ?_⟩ <;>
      · simp only [u100_calculate_csv_metrics, u100Bucket, List.map_map, Function.comp]
        exact sum_over_firstKeys (fun i => i.platform) _ data

/-- C1: Revenue is never read from the source data (the CSV has no revenue
column, see `CsvRow`) but always derived as spend * roas: per loaded record
in stratospheric_1000_uat.py and comprehensive_100_question_uat.py, in the
overall revenue totals, and in the per-platform and per-campaign revenue
accumulations of stratospheric_1000_uat.py, accurate_qa_test.py and
quick_ui_test.py, each of which equals the sum of spend * roas over the
rows of the bucket. -/
theorem C1_revenue_is_spend_times_roas :
    (∀ rows : List CsvRow, ∀ rec ∈ strat_load_csv_data rows,
        rec.revenue = rec.spend * rec.roas)
    ∧ (∀ rows : List CsvRow, ∀ rec ∈ u100_load_csv_data rows,
        rec.revenue = rec.spend * rec.roas)
    ∧ (∀ rows : List CsvRow,
        (strat_calculate_csv_metrics (strat_load_csv_data rows)).total_revenue
          = (rows.map (fun r => r.spend * r.roas)).sum)
    ∧ (∀ rows : List CsvRow,
        ∀ pb ∈ (strat_calculate_csv_metrics (strat_load_csv_data rows)).platform_metrics,
          pb.2.revenue
            = ((rows.filter (fun r => r.platform == pb.1)).map
                (fun r => r.spend * r.roas)).sum)
    ∧ (∀ rows : List CsvRow,
        ∀ cb ∈ (strat_calculate_csv_metrics (strat_load_csv_data rows)).campaign_metrics,
          cb.2.revenue
            = ((rows.filter (fun r => r.campaign_name == cb.1)).map
                (fun r => r.spend * r.roas)).sum)
    ∧ (∀ rows : List CsvRow,
        (aq_calculate_expected_values rows).total_revenue
          = (rows.map (fun r => r.spend * r.roas)).sum)
    ∧ (∀ rows : List CsvRow, ∀ b ∈ (aq_calculate_expected_values rows).platforms,
        b.revenue
          = ((rows.filter (fun r => r.platform == b.name)).map
              (fun r => r.spend * r.roas)).sum)
    ∧ (∀ rows : List CsvRow, ∀ b ∈ (aq_calculate_expected_values rows).campaigns,
        b.revenue
          = ((rows.filter (fun r => r.campaign_name == b.name)).map
              (fun r => r.spend * r.roas)).sum)
    ∧ (∀ rows : List CsvRow,
        (quickui_calculate_csv_metrics rows).total_revenue
          = (rows.map (fun r => r.spend * r.roas)).sum) := by
  refine ⟨?_, ?_, ?_, ?_, ?_, ?_, ?_, ?_, ?_⟩
  · intro rows rec hrec
    rcases List.mem_map.mp hrec with ⟨r, _, rfl⟩
    rfl
  · intro rows rec hrec
    rcases List.mem_map.mp hrec with ⟨r, _, rfl⟩
    rfl
  · intro rows
    simp only [strat_calculate_csv_metrics, strat_load_csv_data, List.map_map]
    congr 1
  · intro rows pb hpb
    rcases List.mem_map.mp hpb with ⟨p, _, rfl⟩
    show (stratBucket _).revenue = _
    simp only [stratBucket, strat_load_csv_data]
    rw [filter_of_map]
    simp only [List.map_map]
    congr 1
  · intro rows cb hcb
    rcases List.mem_map.mp hcb with ⟨c, _, rfl⟩
    show (stratBucket _).revenue = _
    simp only [stratBucket, strat_load_csv_data]
    rw [filter_of_map]
    simp only [List.map_map]
    congr 1
  · intro rows
    simp [aq_calculate_expected_values]
  · intro rows b hb
    rcases List.mem_map.mp hb with ⟨p, _, rfl⟩
    rfl
  · intro rows b hb
    rcases List.mem_map.mp hb with ⟨c, _, rfl⟩
    rfl
  · intro rows
    simp [quickui_calculate_csv_metrics]

/-! ## Lemmas about the regex engine, for claims about extraction -/

theorem matchRE_some_suffix {α : Type} :
    ∀ (fuel : Nat) (r : RE) (cs : List Char) (k : List Char → Option α) (a : α),
      matchRE fuel r cs k = some a → ∃ rest, rest <:+ cs ∧ k rest = some a := by
  intro fuel
  induction fuel with
  | zero => intro r cs k a h; simp [matchRE] at h
  | succ f ih =>
      intro r cs k a h
      cases r with
      | eps => exact ⟨cs, List.suffix_refl cs, h⟩
      | cls p =>
          cases cs with
          | nil => simp [matchRE] at h
          | cons c cs' =>
              simp only [matchRE] at h
              by_cases hp : p c
              · rw [if_pos hp] at h
                exact ⟨cs', ⟨[c], rfl⟩, h⟩
              · rw [if_neg hp] at h
                exact absurd h (by simp)
      | seq a' b =>
          simp only [matchRE] at h
          obtain ⟨r1, hr1, hk1⟩ := ih a' cs _ a h
          obtain ⟨r2, hr2, hk2⟩ := ih b r1 k a hk1
          exact ⟨r2, hr2.trans hr1, hk2⟩
      | opt r' =>
          simp only [matchRE] at h
          cases hfst : matchRE f r' cs k with
          | some b =>
              rw [hfst] at h
              simp only [Option.orElse] at h
              obtain ⟨rest, hsub, hk⟩ := ih r' cs k b hfst
              cases h
              exact ⟨rest, hsub, hk⟩
          | none =>
              rw [hfst] at h
              simp only [Option.orElse] at h
              exact ⟨cs, List.suffix_refl cs, h⟩
      | star r' =>
          simp only [matchRE] at h
          cases hfst : matchRE f r' cs
              (fun rest =>
                if rest.length < cs.length then matchRE f (.star r') rest k else none) with
          | some b =>
              rw [hfst] at h
              simp only [Option.orElse] at h
              cases h
              obtain ⟨r1, hr1, hk1⟩ := ih r' cs _ a hfst
              by_cases hlt : r1.length < cs.length
              · rw [if_pos hlt] at hk1
                obtain ⟨r2, hr2, hk2⟩ := ih (.star r') r1 k a hk1
                exact ⟨r2, hr2.trans hr1, hk2⟩
              · rw [if_neg hlt] at hk1
                exact absurd hk1 (by simp)
          | none =>
              rw [hfst] at h
              simp only [Option.orElse] at h
              exact ⟨cs, List.suffix_refl cs, h⟩

theorem matchRE_cls_mem {α : Type} {p : Char → Bool} {fuel : Nat} {cs : List Char}
    {k : List Char → Option α} {a : α} (h : matchRE fuel (.cls p) cs k = some a) :
    ∃ x ∈ cs, p x = true := by
  match fuel, cs with
  | 0, _ => simp [matchRE] at h
  | f + 1, [] => simp [matchRE] at h
  | f + 1, c :: cs' =>
      simp only [matchRE] at h
      by_cases hp : p c
      · exact ⟨c, List.mem_cons_self c cs', hp⟩
      · rw [if_neg hp] at h
        exact absurd h (by simp)

/-- A pattern whose post part is a single character class can only match
when the input suffix holds a character of that class. -/
theorem tryAt_cls_post_none {pre grp : RE} {p : Char → Bool} {cs : List Char}
    (h : ∀ x ∈ cs, p x = false) : tryAt pre grp (.cls p) cs = none := by
  cases htry : tryAt pre grp (.cls p) cs with
  | none => rfl
  | some g =>
      exfalso
      unfold tryAt at htry
      obtain ⟨r1, hr1, hk1⟩ := matchRE_some_suffix _ _ _ _ _ htry
      obtain ⟨r2, hr2, hk2⟩ := matchRE_some_suffix _ _ _ _ _ hk1
      obtain ⟨x, hx, hpx⟩ := matchRE_cls_mem hk2
      have hxcs : x ∈ cs := hr1.subset (hr2.subset hx)
      rw [h x hxcs] at hpx
      exact Bool.false_ne_true hpx

theorem searchG_cls_post_none {pre grp : RE} {p : Char → Bool} :
    ∀ (cs : List Char), (∀ x ∈ cs, p x = false) →
      searchG pre grp (.cls p) cs = none := by
  intro cs
  induction cs with
  | nil =>
      intro h
      simp only [searchG]
      rw [tryAt_cls_post_none h]
  | cons c cs' ih =>
      intro h
      simp only [searchG]
      rw [tryAt_cls_post_none h]
      simp only [Option.orElse]
      exact ih (fun x hx => h x (List.mem_cons_of_mem c hx))

/-- C10: For every input text, `AccurateQATester.extract_numeric_value` with
metric type "percentage" returns 0: the function first deletes every `%`
character and then applies the pattern `(\d+\.?\d*)%`, which needs a `%` to
match, so the no-match default 0.0 is always returned. -/
theorem C10_aq_percentage_extraction_always_zero :
    ∀ text : String, aq_extract_numeric_value text "percentage" = 0 := by
  intro text
  have hsearch :
      searchG .eps numSimple (chRE '%')
        (text.toList.filter (fun c => !(c == ',' || c == '$' || c == '%'))) = none := by
    apply searchG_cls_post_none
    intro x hx
    have hpred := (List.mem_filter.mp hx).2
    revert hpred
    by_cases hx' : x = '%' <;> simp [hx']
  have hbranch : aq_extract_numeric_value text "percentage"
      = match searchG .eps numSimple (chRE '%')
            (text.toList.filter (fun c => !(c == ',' || c == '$' || c == '%'))) with
        | some g => (parseQ g).getD 0
        | none => 0 := rfl
  rw [hbranch, hsearch]

/-- A row with zero impressions but a nonzero ctr column, and the empty row
list: concrete inputs on which `calculate_comprehensive_csv_metrics`
contradicts claim C2. -/
def c2row : CsvRow :=
  { platform := "Meta", campaign_name := "A", spend := 0, impressions := 0, clicks := 0,
    conversions := 0, ctr := 5, cpc := 0, cpm := 0, roas := 0 }

/-- C2 counterexample: `calculate_comprehensive_csv_metrics` raises
ZeroDivisionError (modelled by `none`) on the empty sequence instead of
returning zeroed buckets, and on a single row with impressions sum 0 its
derived ctr is 5 (the mean of the per-row ctr column), not 0. -/
theorem C2_counterexample_comp_metrics_not_total :
    calculate_comprehensive_csv_metrics [] = none
    ∧ (calculate_comprehensive_csv_metrics [c2row]).map
        (fun m => (m.total_impressions, m.average_ctr)) = some (0, 5) := by
  constructor
  · rfl
  · simp +decide [calculate_comprehensive_csv_metrics, c2row]

/-- C2 amended: in stratospheric_1000_uat.py `calculate_csv_metrics` is
total (every finite sequence, including the empty one, produces a result by
construction) and every derived ratio guards its denominator, yielding 0
when the bucket denominator sum is 0 (ctr/roas/cpa are the ratios it
computes).  In comprehensive_csv_validation.py the roas/cpc/cpm/cpa ratios
are likewise guarded in every bucket, and the function returns normally on
every nonempty sequence; its ctr is the mean of the per-row ctr column and
its overall average_ctr divides by the row count unguarded, so the original
claim fails there (see the counterexample).  In the rational model no value
can be NaN or infinite; totality plus the zero guards express the
no-NaN/Infinity reading. -/
theorem C2_amended_zero_guards :
    (∀ data : List StratRecord,
      ((strat_calculate_csv_metrics data).total_impressions = 0 →
          (strat_calculate_csv_metrics data).overall_ctr = 0)
      ∧ ((strat_calculate_csv_metrics data).total_spend = 0 →
          (strat_calculate_csv_metrics data).overall_roas = 0)
      ∧ ((strat_calculate_csv_metrics data).total_conversions = 0 →
          (strat_calculate_csv_metrics data).overall_cpa = 0)
      ∧ (∀ pb ∈ (strat_calculate_csv_metrics data).platform_metrics,
          (pb.2.impressions = 0 → pb.2.ctr = 0)
          ∧ (pb.2.spend = 0 → pb.2.roas = 0)
          ∧ (pb.2.conversions = 0 → pb.2.cpa = 0))
      ∧ (∀ cb ∈ (strat_calculate_csv_metrics data).campaign_metrics,
          (cb.2.impressions = 0 → cb.2.ctr = 0)
          ∧ (cb.2.spend = 0 → cb.2.roas = 0)
          ∧ (cb.2.conversions = 0 → cb.2.cpa = 0)))
    ∧ (∀ (rows : List CsvRow) (m : CompMetrics),
        calculate_comprehensive_csv_metrics rows = some m →
          (m.total_spend = 0 → m.overall_roas = 0)
          ∧ (m.total_clicks = 0 → m.average_cpc = 0)
          ∧ (m.total_impressions = 0 → m.average_cpm = 0)
          ∧ (m.total_conversions = 0 → m.average_cpa = 0)
          ∧ (∀ pb ∈ m.platform_metrics,
              (pb.2.spend = 0 → pb.2.roas = 0)
              ∧ (pb.2.clicks = 0 → pb.2.cpc = 0)
              ∧ (pb.2.impressions = 0 → pb.2.cpm = 0)
              ∧ (pb.2.conversions = 0 → pb.2.cpa = 0))
          ∧ (∀ cb ∈ m.campaign_metrics,
              (cb.2.spend = 0 → cb.2.roas = 0)
              ∧ (cb.2.clicks = 0 → cb.2.cpc = 0)
              ∧ (cb.2.conversions = 0 → cb.2.cpa = 0)))
    ∧ (∀ rows : List CsvRow, rows ≠ [] →
        (calculate_comprehensive_csv_metrics rows).isSome = true) := by
  refine ⟨?_, ?_, ?_⟩
  · intro data
    refine ⟨?_, ?_, ?_, ?_, ?_⟩
    · intro h
      simp only [strat_calculate_csv_metrics] at h ⊢
      rw [h]
      simp
    · intro h
      simp only [strat_calculate_csv_metrics] at h ⊢
      rw [h]
      simp
    · intro h
      simp only [strat_calculate_csv_metrics] at h ⊢
      rw [h]
      simp
    · intro pb hpb
      simp only [strat_calculate_csv_metrics] at hpb
      rcases List.mem_map.mp hpb with ⟨p, _, rfl⟩
      simp only [stratBucket]
      refine ⟨?_, ?_, ?_⟩ <;> · intro h; rw [h]; simp
    · intro cb hcb
      simp only [strat_calculate_csv_metrics] at hcb
      rcases List.mem_map.mp hcb with ⟨c, _, rfl⟩
      simp only [stratBucket]
      refine ⟨?_, ?_, ?_⟩ <;> · intro h; rw [h]; simp
  · intro rows m hm
    cases rows with
    | nil => exact absurd hm (by simp [calculate_comprehensive_csv_metrics])
    | cons r rs =>
        simp only [calculate_comprehensive_csv_metrics, Option.some.injEq] at hm
        subst hm
        refine ⟨?_, ?_, ?_, ?_, ?_, ?_⟩
        · intro h; dsimp only at h ⊢; rw [h]; simp
        · intro h; dsimp only at h ⊢; rw [h]; simp
        · intro h; dsimp only at h ⊢; rw [h]; simp
        · intro h; dsimp only at h ⊢; rw [h]; simp
        · intro pb hpb
          dsimp only at hpb
          rcases List.mem_map.mp hpb with ⟨p, _, rfl⟩
          simp only [compPlatformBucket]
          refine ⟨?_, ?_, ?_, ?_⟩ <;> · intro h; rw [h]; simp
        · intro cb hcb
          dsimp only at hcb
          rcases List.mem_map.mp hcb with ⟨c, _, rfl⟩
          simp only [compCampaignBucket]
          refine ⟨?_, ?_, ?_⟩ <;> · intro h; rw [h]; simp
  · intro rows hne
    cases rows with
    | nil => exact absurd rfl hne
    | cons r rs => rfl

/-- C2 witness: the amended guards applied at concrete inputs. -/
theorem C2_amended_zero_guards_witness :
    (strat_calculate_csv_metrics []).overall_ctr = 0
    ∧ (calculate_comprehensive_csv_metrics [c2row]).isSome = true :=
  ⟨(C2_amended_zero_guards.1 []).1 (by simp [strat_calculate_csv_metrics]),
   C2_amended_zero_guards.2.2 [c2row] (by simp)⟩

def c3r1 : CsvRow :=
  { platform := "Meta", campaign_name := "A", spend := 100, impressions := 0, clicks := 0,
    conversions := 0, ctr := 0, cpc := 0, cpm := 0, roas := 1 }

def c3r2 : CsvRow :=
  { platform := "Meta", campaign_name := "A", spend := 300, impressions := 0, clicks := 0,
    conversions := 0, ctr := 0, cpc := 0, cpm := 0, roas := 3 }

/-- C3 counterexample: on two Meta rows with spend 100 at roas 1 and spend
300 at roas 3, `calculate_expected_values` of accurate_qa_test.py reports
platform roas 2 (the mean of the per-row roas values), while the
ratio-of-sums revenue_sum / spend_sum of the same bucket is 5/2: the bucket
roas is computed as a per-row mean, contradicting the claim. -/
theorem C3_counterexample_aq_roas_is_mean :
    ((aq_calculate_expected_values [c3r1, c3r2]).platforms.map (fun b => b.roas)) = [2]
    ∧ ((aq_calculate_expected_values [c3r1, c3r2]).platforms.map
        (fun b => if b.spend > 0 then b.revenue / b.spend else 0)) = [5 / 2]
    ∧ ((2 : ℚ) ≠ 5 / 2) := by
  refine ⟨?_, ?_, by norm_num⟩
  · simp +decide [aq_calculate_expected_values, aqBucket, firstKeys, c3r1, c3r2]
    norm_num
  · simp +decide [aq_calculate_expected_values, aqBucket, firstKeys, c3r1, c3r2]
    norm_num

/-- C3 amended: stratospheric_1000_uat.py computes every bucket ratio as a
ratio of the accumulated sums (ctr = clicks_sum / impressions_sum,
roas = revenue_sum / spend_sum, overall and per bucket).
accurate_qa_test.py computes bucket ctr as ratio-of-sums but bucket roas as
the mean of the per-row roas values.  comprehensive_csv_validation.py
computes bucket roas as ratio-of-sums but bucket ctr as the mean of the
per-row ctr column.  The original claim ("never the mean of per-row
ratios") holds only for stratospheric_1000_uat.py. -/
theorem C3_amended_ratio_conventions :
    (∀ data : List StratRecord,
      (0 < (strat_calculate_csv_metrics data).total_impressions →
          (strat_calculate_csv_metrics data).overall_ctr
            = (strat_calculate_csv_metrics data).total_clicks
              / (strat_calculate_csv_metrics data).total_impressions)
      ∧ (0 < (strat_calculate_csv_metrics data).total_spend →
          (strat_calculate_csv_metrics data).overall_roas
            = (strat_calculate_csv_metrics data).total_revenue
              / (strat_calculate_csv_metrics data).total_spend)
      ∧ (∀ pb ∈ (strat_calculate_csv_metrics data).platform_metrics,
          (0 < pb.2.impressions → pb.2.ctr = pb.2.clicks / pb.2.impressions)
          ∧ (0 < pb.2.spend → pb.2.roas = pb.2.revenue / pb.2.spend))
      ∧ (∀ cb ∈ (strat_calculate_csv_metrics data).campaign_metrics,
          (0 < cb.2.impressions → cb.2.ctr = cb.2.clicks / cb.2.impressions)
          ∧ (0 < cb.2.spend → cb.2.roas = cb.2.revenue / cb.2.spend)))
    ∧ (∀ rows : List CsvRow,
      (∀ b ∈ (aq_calculate_expected_values rows).platforms,
        b.roas = ((rows.filter (fun r => r.platform == b.name)).map (fun r => r.roas)).sum
            / (((rows.filter (fun r => r.platform == b.name)).map (fun r => r.roas)).length : ℚ)
        ∧ (0 < b.impressions → b.ctr = b.clicks / b.impressions))
      ∧ (∀ b ∈ (aq_calculate_expected_values rows).campaigns,
        b.roas
          = ((rows.filter (fun r => r.campaign_name == b.name)).map (fun r => r.roas)).sum
            / (((rows.filter (fun r => r.campaign_name == b.name)).map
                (fun r => r.roas)).length : ℚ)
        ∧ (0 < b.impressions → b.ctr = b.clicks / b.impressions)))
    ∧ (∀ (rows : List CsvRow) (m : CompMetrics),
        calculate_comprehensive_csv_metrics rows = some m →
          (∀ pb ∈ m.platform_metrics,
            (0 < (rows.filter (fun r => r.platform == pb.1)).length →
              pb.2.ctr
                = ((rows.filter (fun r => r.platform == pb.1)).map (fun r => r.ctr)).sum
                  / (((rows.filter (fun r => r.platform == pb.1)).length : ℚ)))
            ∧ (0 < pb.2.spend → pb.2.roas
                = ((rows.filter (fun r => r.platform == pb.1)).map
                    (fun r => r.spend * r.roas)).sum / pb.2.spend))
          ∧ (∀ cb ∈ m.campaign_metrics,
            (0 < (rows.filter (fun r => pyStrip r.campaign_name == cb.1)).length →
              cb.2.ctr
                = ((rows.filter (fun r => pyStrip r.campaign_name == cb.1)).map
                    (fun r => r.ctr)).sum
                  / (((rows.filter (fun r => pyStrip r.campaign_name == cb.1)).length : ℚ)))
            ∧ (0 < cb.2.spend → cb.2.roas
                = ((rows.filter (fun r => pyStrip r.campaign_name == cb.1)).map
                    (fun r => r.spend * r.roas)).sum / cb.2.spend))) := by
  refine ⟨?_, ?_, ?_⟩
  · intro data
    refine ⟨?_, ?_, ?_, ?_⟩
    · intro h
      simp only [strat_calculate_csv_metrics] at h ⊢
      rw [if_pos h]
    · intro h
      simp only [strat_calculate_csv_metrics] at h ⊢
      rw [if_pos h]
    · intro pb hpb
      simp only [strat_calculate_csv_metrics] at hpb
      rcases List.mem_map.mp hpb with ⟨p, _, rfl⟩
      constructor
      · intro h
        simp only [stratBucket] at h ⊢
        rw [if_pos h]
      · intro h
        simp only [stratBucket] at h ⊢
        rw [if_pos h]
    · intro cb hcb
      simp only [strat_calculate_csv_metrics] at hcb
      rcases List.mem_map.mp hcb with ⟨c, _, rfl⟩
      constructor
      · intro h
        simp only [stratBucket] at h ⊢
        rw [if_pos h]
      · intro h
        simp only [stratBucket] at h ⊢
        rw [if_pos h]
  · intro rows
    constructor
    · intro b hb
      simp only [aq_calculate_expected_values] at hb
      rcases List.mem_map.mp hb with ⟨p, _, rfl⟩
      constructor
      · rfl
      · intro h
        simp only [aqBucket] at h ⊢
        rw [if_pos h]
    · intro b hb
      simp only [aq_calculate_expected_values] at hb
      rcases List.mem_map.mp hb with ⟨c, _, rfl⟩
      constructor
      · rfl
      · intro h
        simp only [aqBucket] at h ⊢
        rw [if_pos h]
  · intro rows m hm
    cases rows with
    | nil => exact absurd hm (by simp [calculate_comprehensive_csv_metrics])
    | cons r rs =>
        simp only [calculate_comprehensive_csv_metrics, Option.some.injEq] at hm
        subst hm
        constructor
        · intro pb hpb
          dsimp only at hpb
          rcases List.mem_map.mp hpb with ⟨p, _, rfl⟩
          constructor
          · intro h
            simp only [compPlatformBucket, List.length_map]
            rw [if_pos h]
          · intro h
            simp only [compPlatformBucket] at h ⊢
            rw [if_pos h]
        · intro cb hcb
          dsimp only at hcb
          rcases List.mem_map.mp hcb with ⟨c, _, rfl⟩
          constructor
          · intro h
            simp only [compCampaignBucket, List.length_map]
            rw [if_pos h]
          · intro h
            simp only [compCampaignBucket] at h ⊢
            rw [if_pos h]

def c3w : CsvRow :=
  { platform := "Meta", campaign_name := "A", spend := 0, impressions := 2, clicks := 1,
    conversions := 0, ctr := 0, cpc := 0, cpm := 0, roas := 0 }

/-- C3 witness: the ratio-of-sums equation applied at a concrete loaded row
with positive impressions. -/
theorem C3_amended_ratio_conventions_witness :
    0 < (strat_calculate_csv_metrics (strat_load_csv_data [c3w])).total_impressions
    ∧ (strat_calculate_csv_metrics (strat_load_csv_data [c3w])).overall_ctr
        = (strat_calculate_csv_metrics (strat_load_csv_data [c3w])).total_clicks
          / (strat_calculate_csv_metrics (strat_load_csv_data [c3w])).total_impressions := by
  have hpos :
      0 < (strat_calculate_csv_metrics (strat_load_csv_data [c3w])).total_impressions := by
    simp [strat_calculate_csv_metrics, strat_load_csv_data, stratLoadRow, c3w]
  exact ⟨hpos, (C3_amended_ratio_conventions.1 (strat_load_csv_data [c3w])).1 hpos⟩

/-- A generic-fallback answer that embeds a number. -/
def fbResp : String :=
  "I understand you are asking about spend. Try asking about: total spend is $1000"

/-- C4 counterexample: `validate_response` of
comprehensive_100_question_uat.py performs no fallback check at all: on an
answer that carries the generic-help signature "Try asking about" it
extracts the embedded number 1000 and returns pass = true, contradicting
the claim that such an answer always yields pass = false. -/
theorem C4_counterexample_fallback_passes :
    containsStr fbResp "Try asking about" = true
    ∧ passOf (u100_validate_response fbResp (some 1000) U100Type.currency (1 / 10)) = true := by
  refine ⟨by decide, ?_⟩
  have hs : searchG (.opt (chRE '$')) commaNum .eps fbResp.toList
      = some ['1', '0', '0', '0'] := by decide
  have hex : u100_extract_number_from_response fbResp U100Type.currency = some 1000 := by
    simp +decide [u100_extract_number_from_response, hs, parseQ, digitsToNat]
  simp +decide [u100_validate_response, hex, passOf]

/-- C4 amended: only `validate_against_csv` of comprehensive_csv_validation.py
checks the generic-help signature before any numeric extraction, and it only
does so for the phrase "try asking about" on responses shorter than 200
characters (line 151); `validate_response` of comprehensive_100_question_uat.py
performs no fallback check, so a number embedded in fallback text can
produce a passing outcome there (see the counterexample). -/
theorem C4_amended_fallback_check_is_length_limited :
    ∀ (q resp : String) (m : CompMetrics),
      containsStr (strLower resp) "try asking about" = true →
      containsStr (strLower resp) "error" = false →
      containsStr (strLower resp) "exception" = false →
      resp.length < 200 →
      validate_against_csv q resp m
        = .ok (false, "Response is generic help message instead of specific answer") := by
  intro q resp m h1 h2 h3 h4
  unfold validate_against_csv
  simp [h1, h2, h3, h4]

/-- An all-zero metrics value used as a concrete validator input. -/
def compZeroMetrics : CompMetrics :=
  { total_spend := 0, total_revenue := 0, total_impressions := 0, total_clicks := 0,
    total_conversions := 0, overall_roas := 0, average_ctr := 0, average_cpc := 0,
    average_cpm := 0, average_cpa := 0, conversion_rate := 0, platform_metrics := [],
    campaign_metrics := [] }

/-- C4 witness: the early fallback rejection applied at a concrete short
fallback response. -/
theorem C4_amended_fallback_check_witness :
    validate_against_csv "What is the total spend?" "Try asking about: spend metrics"
        compZeroMetrics
      = .ok (false, "Response is generic help message instead of specific answer") :=
  C4_amended_fallback_check_is_length_limited "What is the total spend?"
    "Try asking about: spend metrics" compZeroMetrics (by decide) (by decide) (by decide)
    (by decide)

/-- C5 counterexample: `validate_response` of stratospheric_1000_uat.py
compares by absolute difference, not relative: on answer "Total: 999.5"
with expected value 999 and tolerance 0.01 it extracts 999.5 and fails
(|999.5 - 999| = 0.5 > 0.01), although the claimed relative rule
|extracted - expected| / expected = 0.5/999 <= 0.01 would pass. -/
theorem C5_counterexample_strat_absolute_tolerance :
    strat_extract_number_from_response "Total: 999.5" StratType.number = some (1999 / 2)
    ∧ passOf (strat_validate_response "Total: 999.5" (some 999) StratType.number (1 / 100))
        = false
    ∧ |(1999 / 2 : ℚ) - 999| / 999 ≤ 1 / 100 := by
  have hs : searchG (.seq (chRE ':') wsStar) grpNum .eps ("Total: 999.5".toList)
      = some ['9', '9', '9', '.', '5'] := by decide
  have hp : parseQ ['9', '9', '9', '.', '5'] = some (1999 / 2) := by
    simp +decide [parseQ, digitsToNat]
    norm_num
  have hex : strat_extract_number_from_response "Total: 999.5" StratType.number
      = some (1999 / 2) := by
    simp only [strat_extract_number_from_response]
    rw [hs]
    simp [hp, Option.orElse]
  have habs : |(1999 / 2 : ℚ) - 999| = 1 / 2 := by
    rw [show (1999 / 2 : ℚ) - 999 = 1 / 2 by norm_num]
    exact abs_of_nonneg (by norm_num)
  refine ⟨hex, ?_, by rw [habs]; norm_num⟩
  simp +decide [strat_validate_response, hex, passOf]
  rw [habs]
  norm_num

/-- C5 amended: when extraction succeeds with value v, the validators
compare as follows.  comprehensive_100_question_uat.py: for nonzero
expected e, pass iff |v - e| / e <= tolerance (dividing by e as written,
not by max(|e|, eps)), and for e = 0, pass iff v = 0 exactly.
accurate_qa_test.py: for nonzero expected, pass iff |v - e| / |e| <=
tolerance (via accuracy = 1 - relative error).  stratospheric_1000_uat.py
instead uses the absolute rule: pass iff |v - e| <= tolerance, for every
numeric metric type. -/
theorem C5_amended_tolerance_semantics :
    (∀ (resp : String) (e tol v : ℚ) (t : U100Type),
      u100_extract_number_from_response resp t = some v → e ≠ 0 →
      (passOf (u100_validate_response resp (some e) t tol) = true ↔ |v - e| / e ≤ tol))
    ∧ (∀ (resp : String) (tol v : ℚ) (t : U100Type),
      u100_extract_number_from_response resp t = some v →
      (passOf (u100_validate_response resp (some 0) t tol) = true ↔ v = 0))
    ∧ (∀ (resp : String) (e tol v : ℚ) (t : StratType),
      resp ≠ "" → containsStr (strLower resp) "error" = false →
      t ≠ .comparative → t ≠ .insights →
      strat_extract_number_from_response resp t = some v →
      (passOf (strat_validate_response resp (some e) t tol) = true ↔ |v - e| ≤ tol))
    ∧ (∀ a e tol : ℚ, e ≠ 0 →
      (aq_test_question_passed a e tol = true ↔ |a - e| / |e| ≤ tol)) := by
  refine ⟨?_, ?_, ?_, ?_⟩
  · intro resp e tol v t hex hne
    cases hg : (decide (resp = "") || containsStr resp "Error:") with
    | true =>
        rw [u100_extract_number_from_response.eq_def] at hex
        simp [hg] at hex
    | false =>
        simp [u100_validate_response, hg, hex, hne, passOf]
  · intro resp tol v t hex
    cases hg : (decide (resp = "") || containsStr resp "Error:") with
    | true =>
        rw [u100_extract_number_from_response.eq_def] at hex
        simp [hg] at hex
    | false =>
        simp [u100_validate_response, hg, hex, passOf]
  · intro resp e tol v t h1 h2 hc hi hex
    have hg : (decide (resp = "") || containsStr (strLower resp) "error") = false := by
      simp [h1, h2]
    simp [strat_validate_response, hg, hc, hi, hex, passOf]
  · intro a e tol hne
    simp only [aq_test_question_passed, hne, ne_eq, not_false_eq_true, if_true,
      decide_eq_true_eq]
    constructor
    · intro h
      rw [div_le_iff₀ (abs_pos.mpr hne)] at *
      · linarith [(div_le_iff₀ (abs_pos.mpr hne)).mp (by linarith : |a - e| / |e| ≤ tol)]
    · intro h
      linarith

/-- C5 witness: the relative rule of comprehensive_100_question_uat.py
applied at a concrete answer with extractable value 5 and expected 5. -/
theorem C5_amended_tolerance_semantics_witness :
    passOf (u100_validate_response "$5" (some 5) U100Type.currency (1 / 100)) = true := by
  have hs : searchG (.opt (chRE '$')) commaNum .eps ("$5".toList) = some ['5'] := by decide
  have hex : u100_extract_number_from_response "$5" U100Type.currency = some 5 := by
    simp only [u100_extract_number_from_response]
    rw [hs]
    simp +decide [parseQ, digitsToNat]
  exact (C5_amended_tolerance_semantics.1 "$5" 5 (1 / 100) 5 U100Type.currency hex
    (by norm_num)).mpr (by norm_num)

/-- C6 counterexample: the script extractors do not implement the claimed
canonical patterns.  On "4.12 %" the claimed percentage pattern
`(\d+\.?\d*)\s*%` matches (value 0.0412) but both script percentage
extractors return None, because their pattern `(\d+\.?\d*)%` allows no
whitespace before the percent sign.  On "1234.56" the claimed currency
pattern `\$?([\d,]+\.?\d*)` matches, but stratospheric_1000_uat.py returns
None because its currency patterns demand an explicit dollar sign or a
dollars/USD suffix. -/
theorem C6_counterexample_patterns_differ :
    (specPercentExtract "4.12 %").isSome = true
    ∧ u100_extract_number_from_response "4.12 %" U100Type.ctr = none
    ∧ strat_extract_number_from_response "4.12 %" StratType.percentage = none
    ∧ (specCurrencyExtract "1234.56").isSome = true
    ∧ strat_extract_number_from_response "1234.56" StratType.currency = none := by
  exact ⟨by decide, by decide, by decide, by decide, by decide⟩

/-! ## Required-character lemmas for the regex engine -/

/-- Every successful match of `r` consumes some character satisfying `p`. -/
def MatchRequires (p : Char → Bool) (r : RE) : Prop :=
  ∀ {α : Type} (fuel : Nat) (cs : List Char) (k : List Char → Option α) (a : α),
    matchRE fuel r cs k = some a → ∃ x ∈ cs, p x = true

theorem matchRequires_cls {p q : Char → Bool} (h : ∀ c, q c = true → p c = true) :
    MatchRequires p (.cls q) := by
  intro α fuel cs k a hm
  obtain ⟨x, hx, hq⟩ := matchRE_cls_mem hm
  exact ⟨x, hx, h x hq⟩

theorem matchRequires_seq_left {p : Char → Bool} {a b : RE} (h : MatchRequires p a) :
    MatchRequires p (.seq a b) := by
  intro α fuel cs k a' hm
  cases fuel with
  | zero => simp [matchRE] at hm
  | succ f =>
      simp only [matchRE] at hm
      exact h f cs _ a' hm

theorem matchRequires_seq_right {p : Char → Bool} {a b : RE} (h : MatchRequires p b) :
    MatchRequires p (.seq a b) := by
  intro α fuel cs k a' hm
  cases fuel with
  | zero => simp [matchRE] at hm
  | succ f =>
      simp only [matchRE] at hm
      obtain ⟨r1, hsuf, hk⟩ := matchRE_some_suffix f a cs _ a' hm
      obtain ⟨x, hx, hp⟩ := h f r1 k a' hk
      exact ⟨x, hsuf.subset hx, hp⟩

theorem tryAt_some_req_pre {p : Char → Bool} {pre grp post : RE} {cs g : List Char}
    (h : MatchRequires p pre) (hm : tryAt pre grp post cs = some g) :
    ∃ x ∈ cs, p x = true := by
  unfold tryAt at hm
  exact h _ _ _ _ hm

theorem tryAt_some_req_post {p : Char → Bool} {pre grp post : RE} {cs g : List Char}
    (h : MatchRequires p post) (hm : tryAt pre grp post cs = some g) :
    ∃ x ∈ cs, p x = true := by
  unfold tryAt at hm
  obtain ⟨r1, hs1, hk1⟩ := matchRE_some_suffix _ _ _ _ _ hm
  obtain ⟨r2, hs2, hk2⟩ := matchRE_some_suffix _ _ _ _ _ hk1
  obtain ⟨x, hx, hp⟩ := h _ _ _ _ hk2
  exact ⟨x, hs1.subset (hs2.subset hx), hp⟩

theorem searchG_some_req {p : Char → Bool} {pre grp post : RE}
    (htry : ∀ cs g : List Char, tryAt pre grp post cs = some g → ∃ x ∈ cs, p x = true) :
    ∀ cs g : List Char, searchG pre grp post cs = some g → ∃ x ∈ cs, p x = true := by
  intro cs
  induction cs with
  | nil =>
      intro g hm
      exact htry [] g hm
  | cons c cs' ih =>
      intro g hm
      simp only [searchG] at hm
      cases hfst : tryAt pre grp post (c :: cs') with
      | some g' =>
          rw [hfst] at hm
          simp only [Option.orElse] at hm
          cases hm
          exact htry _ _ hfst
      | none =>
          rw [hfst] at hm
          simp only [Option.orElse] at hm
          obtain ⟨x, hx, hp⟩ := ih g hm
          exact ⟨x, List.mem_cons_of_mem c hx, hp⟩

/-- C6 amended: comprehensive_100_question_uat.py implements the claimed
currency pattern exactly (optional dollar sign, commas stripped, first
match), so its currency extraction agrees with the spec pattern on every
non-error response; its percentage pattern is `(\d+\.?\d*)%` with no
optional whitespace, and on whitespace-free input such as the canonical
"4.12%" both scripts extract 0.0412.  stratospheric_1000_uat.py currency
extraction requires an explicit dollar sign or a dollars/USD suffix: any
response it extracts a currency value from contains a `$`, a `d`/`D`, or a
`u`/`U` character, so a bare number like "1234.56" never extracts. -/
theorem C6_amended_extraction_patterns :
    (∀ s : String, s ≠ "" → containsStr s "Error:" = false →
      u100_extract_number_from_response s U100Type.currency = specCurrencyExtract s)
    ∧ u100_extract_number_from_response "4.12%" U100Type.ctr = some (103 / 2500)
    ∧ strat_extract_number_from_response "4.12%" StratType.percentage = some (103 / 2500)
    ∧ (∀ (s : String) (v : ℚ),
        strat_extract_number_from_response s StratType.currency = some v →
          (∃ c ∈ s.toList, (c == '$') = true) ∨ (∃ c ∈ s.toList, (c.toLower == 'd') = true)
          ∨ (∃ c ∈ s.toList, (c.toLower == 'u') = true)) := by
  refine ⟨?_, ?_, ?_, ?_⟩
  · intro s h1 h2
    simp [u100_extract_number_from_response, specCurrencyExtract, h1, h2]
  · have hs : searchG .eps numSimple (chRE '%') ("4.12%".toList)
        = some ['4', '.', '1', '2'] := by decide
    have hp : parseQ ['4', '.', '1', '2'] = some (103 / 25) := by
      simp +decide [parseQ, digitsToNat]
      norm_num
    simp only [u100_extract_number_from_response]
    rw [if_neg (by decide)]
    rw [hs]
    simp [hp]
    norm_num
  · have hs : searchG .eps numSimple (chRE '%') ("4.12%".toList)
        = some ['4', '.', '1', '2'] := by decide
    have hp : parseQ ['4', '.', '1', '2'] = some (103 / 25) := by
      simp +decide [parseQ, digitsToNat]
      norm_num
    simp only [strat_extract_number_from_response]
    rw [hs]
    simp [hp, Option.orElse]
    norm_num
  · intro s v hm
    simp only [strat_extract_number_from_response] at hm
    cases h1 : (searchG (chRE '$') grpNum .eps s.toList).bind parseQ with
    | some w =>
        rw [h1] at hm
        cases hsg : searchG (chRE '$') grpNum .eps s.toList with
        | none => rw [hsg] at h1; exact absurd h1 (by simp)
        | some g =>
            left
            exact searchG_some_req
              (fun cs g hmm => tryAt_some_req_pre (matchRequires_cls (fun c hc => hc)) hmm)
              _ g hsg
    | none =>
        rw [h1] at hm
        simp only [Option.orElse] at hm
        cases h2 : (searchG .eps grpNum
            (.seq wsStar (.seq (wordRE ['d', 'o', 'l', 'l', 'a', 'r']) (.opt (chIRE 's'))))
            s.toList).bind parseQ with
        | some w =>
            cases hsg : searchG .eps grpNum
                (.seq wsStar (.seq (wordRE ['d', 'o', 'l', 'l', 'a', 'r'])
                  (.opt (chIRE 's')))) s.toList with
            | none => rw [hsg] at h2; exact absurd h2 (by simp)
            | some g =>
                right; left
                have hreq : MatchRequires (fun c => c.toLower == 'd')
                    (wordRE ['d', 'o', 'l', 'l', 'a', 'r']) := by
                  rw [show wordRE ['d', 'o', 'l', 'l', 'a', 'r']
                      = .seq (chIRE 'd') (wordRE ['o', 'l', 'l', 'a', 'r']) from rfl]
                  exact matchRequires_seq_left (matchRequires_cls (fun c hc => hc))
                refine searchG_some_req (fun cs g hmm => ?_) _ g hsg
                exact tryAt_some_req_post
                  (matchRequires_seq_right (matchRequires_seq_left hreq)) hmm
        | none =>
            rw [h2] at hm
            simp only [Option.orElse] at hm
            cases hsg : searchG .eps grpNum
                (.seq wsStar (wordRE ['u', 's', 'd'])) s.toList with
            | none => rw [hsg] at hm; exact absurd hm (by simp)
            | some g =>
                right; right
                have hreq : MatchRequires (fun c => c.toLower == 'u')
                    (wordRE ['u', 's', 'd']) := by
                  rw [show wordRE ['u', 's', 'd']
                      = .seq (chIRE 'u') (wordRE ['s', 'd']) from rfl]
                  exact matchRequires_seq_left (matchRequires_cls (fun c hc => hc))
                refine searchG_some_req (fun cs g hmm => ?_) _ g hsg
                exact tryAt_some_req_post (matchRequires_seq_right hreq) hmm

/-- C6 witness: the currency-pattern agreement applied at a concrete
response carrying a dollar amount with a thousands separator. -/
theorem C6_amended_extraction_patterns_witness :
    u100_extract_number_from_response "$1,234.56" U100Type.currency
      = specCurrencyExtract "$1,234.56" :=
  C6_amended_extraction_patterns.1 "$1,234.56" (by decide) (by decide)

def c7r1 : CsvRow :=
  { platform := "Meta", campaign_name := " Foo ", spend := 100, impressions := 0, clicks := 0,
    conversions := 0, ctr := 0, cpc := 0, cpm := 0, roas := 0 }

def c7r2 : CsvRow :=
  { platform := "Meta", campaign_name := "Foo", spend := 300, impressions := 0, clicks := 0,
    conversions := 0, ctr := 0, cpc := 0, cpm := 0, roas := 0 }

/-- C7 counterexample: `calculate_csv_metrics` of stratospheric_1000_uat.py
groups campaigns by the verbatim campaign_name: on one row named " Foo "
and one named "Foo" it produces two separate campaign buckets, keyed
" Foo " and "Foo", not the single trimmed "Foo" bucket the claim requires
(the two names agree after stripping surrounding whitespace). -/
theorem C7_counterexample_strat_does_not_trim :
    ((strat_calculate_csv_metrics (strat_load_csv_data [c7r1, c7r2])).campaign_metrics.map
        Prod.fst) = [" Foo ", "Foo"]
    ∧ pyStrip c7r1.campaign_name = pyStrip c7r2.campaign_name := by
  exact ⟨by decide, by decide⟩

/-- Mapping `Prod.fst` over key-bucket pairs built from a key list recovers
the key list. -/
theorem map_fst_pair {β : Type} (f : String → β) (keys : List String) :
    (keys.map (fun k => (k, f k))).map Prod.fst = keys := by
  rw [List.map_map]
  have h : (Prod.fst ∘ fun k => ((k, f k) : String × β)) = id := funext (fun k => rfl)
  rw [h, List.map_id]

/-- C7 amended: only the campaign grouping of
comprehensive_csv_validation.py strips surrounding whitespace before
comparing keys, so there " Foo " and "Foo" fall into one "Foo" bucket whose
sums cover both rows; the campaign grouping of stratospheric_1000_uat.py
(and the platform groupings of both scripts) compares the verbatim strings,
splitting such rows into separate buckets. -/
theorem C7_amended_trim_only_in_comprehensive :
    (∀ (rows : List CsvRow) (m : CompMetrics),
      calculate_comprehensive_csv_metrics rows = some m →
        m.campaign_metrics.map Prod.fst = firstKeys (rows.map (fun r => pyStrip r.campaign_name))
        ∧ ∀ cb ∈ m.campaign_metrics,
            cb.2.spend
              = ((rows.filter (fun r => pyStrip r.campaign_name == cb.1)).map
                  (fun r => r.spend)).sum)
    ∧ (∀ data : List StratRecord,
        (strat_calculate_csv_metrics data).campaign_metrics.map Prod.fst
          = firstKeys (data.map (fun i => i.campaign_name))
        ∧ (strat_calculate_csv_metrics data).platform_metrics.map Prod.fst
          = firstKeys (data.map (fun i => i.platform)))
    ∧ ((calculate_comprehensive_csv_metrics [c7r1, c7r2]).map
        (fun m => m.campaign_metrics.map (fun cb => (cb.1, cb.2.spend)))
          = some [("Foo", 400)]) := by
  refine ⟨?_, ?_, ?_⟩
  · intro rows m hm
    cases rows with
    | nil => exact absurd hm (by simp [calculate_comprehensive_csv_metrics])
    | cons r rs =>
        simp only [calculate_comprehensive_csv_metrics, Option.some.injEq] at hm
        subst hm
        constructor
        · dsimp only
          exact map_fst_pair _ _
        · intro cb hcb
          dsimp only at hcb
          rcases List.mem_map.mp hcb with ⟨c, _, rfl⟩
          rfl
  · intro data
    constructor
    · simp only [strat_calculate_csv_metrics]
      exact map_fst_pair _ _
    · simp only [strat_calculate_csv_metrics]
      exact map_fst_pair _ _
  · simp +decide [calculate_comprehensive_csv_metrics, compCampaignBucket, firstKeys,
      c7r1, c7r2, pyStrip]
    norm_num

/-- C7 witness: the trimmed-campaign grouping equation applied at the
concrete two-row input. -/
theorem C7_amended_trim_witness :
    ((calculate_comprehensive_csv_metrics [c7r1, c7r2]).map
        (fun m => m.campaign_metrics.map Prod.fst))
      = some (firstKeys ([c7r1, c7r2].map (fun r => pyStrip r.campaign_name))) := by
  cases hm : calculate_comprehensive_csv_metrics [c7r1, c7r2] with
  | none => exact absurd hm (by decide)
  | some m =>
      have h := (C7_amended_trim_only_in_comprehensive.1 [c7r1, c7r2] m hm).1
      simp [h]

/-- C8 counterexample: with a missing (None) expected value and a numeric
metric type whose extraction succeeds, both validators raise a TypeError at
`abs(extracted_value - expected_value)` (modelled by `Except.error`) instead
of returning a pass = false outcome. -/
theorem C8_counterexample_none_expected_raises :
    raisedOf (u100_validate_response "The answer is 5" none U100Type.number (1 / 10)) = true
    ∧ raisedOf (strat_validate_response "Total: 5" none StratType.number (1 / 100)) = true := by
  exact ⟨by decide, by decide⟩

/-- C8 amended: both validators return an outcome (never raise) for every
answer text, tolerance and metric type whenever a numeric expected value is
supplied, and also when the expected value is missing but nothing can be
extracted; the only raising inputs are a missing expected value combined
with a successful numeric extraction (see the counterexample). -/
theorem C8_amended_validator_totality :
    (∀ (resp : String) (e : ℚ) (t : U100Type) (tol : ℚ),
      raisedOf (u100_validate_response resp (some e) t tol) = false)
    ∧ (∀ (resp : String) (e : ℚ) (t : StratType) (tol : ℚ),
      raisedOf (strat_validate_response resp (some e) t tol) = false)
    ∧ (∀ (resp : String) (t : U100Type) (tol : ℚ),
      u100_extract_number_from_response resp t = none →
      raisedOf (u100_validate_response resp none t tol) = false)
    ∧ (∀ (resp : String) (t : StratType) (tol : ℚ),
      strat_extract_number_from_response resp t = none →
      raisedOf (strat_validate_response resp none t tol) = false) := by
  refine ⟨?_, ?_, ?_, ?_⟩
  · intro resp e t tol
    unfold u100_validate_response
    repeat' split
    all_goals first | rfl | simp_all
  · intro resp e t tol
    unfold strat_validate_response
    repeat' split
    all_goals first | rfl | simp_all
  · intro resp t tol hex
    simp only [u100_validate_response, hex]
    repeat' split
    all_goals rfl
  · intro resp t tol hex
    simp only [strat_validate_response, hex]
    repeat' split
    all_goals rfl

/-- C8 witness: totality applied at a concrete unextractable answer with a
missing expected value, and at a concrete numeric expected value. -/
theorem C8_amended_validator_totality_witness :
    raisedOf (u100_validate_response "hello" none U100Type.ctr (1 / 10)) = false :=
  C8_amended_validator_totality.2.2.1 "hello" U100Type.ctr (1 / 10) (by decide)

/-- C1 witness: the revenue invariant applied to a concrete loaded record. -/
theorem C1_revenue_is_spend_times_roas_witness :
    (stratLoadRow c3r1).revenue = (stratLoadRow c3r1).spend * (stratLoadRow c3r1).roas :=
  C1_revenue_is_spend_times_roas.1 [c3r1] (stratLoadRow c3r1) (by simp [strat_load_csv_data])
